import Mathlib

/-!
Shallow embedding of the `pgo` UUID package (`uuid/uuid.go`).

Strings and byte slices are modelled as `List Nat` whose elements are byte
values; reading a byte from a buffer applies `% 256`, modelling the Go
`byte` type. Fallible operations return `Except Err`. The system clock and
the cryptographic random source are external inputs: each generator takes
the sampled time and an entropy buffer (a list of random bytes) as explicit
arguments; `rand.Read` of `n` bytes fails exactly when fewer than `n`
entropy bytes remain, which models a random-source error.
-/

namespace PGo

/-- Error values. `entropy` models a `crypto/rand` read error; the other
constructors model the distinct `fmt.Errorf` sites of the parser. -/
inductive Err where
  | entropy
  | wrongLength (n : Nat)
  | wrongFormat
  | invalidFormat
  | wrongUrnPrefix
  deriving DecidableEq, Repr

/-- Byte list of the Go string literal `"urn:uuid:"` (used by `UUIDfromString`). -/
def urnPrefix : List Nat := [117, 114, 110, 58, 117, 117, 105, 100, 58]

/-- Byte list of the Go literal `"urn:uuid"` — note: no trailing colon —
which is what `UUIDfromBytes` compares against. -/
def urnPrefixNoColon : List Nat := [117, 114, 110, 58, 117, 117, 105, 100]

/-- ASCII lower-casing of one byte, as `strings.EqualFold`/`bytes.EqualFold`
behave on the ASCII inputs involved here. -/
def toLowerAscii (b : Nat) : Nat := if 65 ≤ b ∧ b ≤ 90 then b + 32 else b

/-- `EqualFold` on byte lists: equal length and case-insensitively equal bytes. -/
def foldEqAscii : List Nat → List Nat → Bool
  | [], [] => true
  | a :: restA, b :: restB => (toLowerAscii (a % 256) == toLowerAscii (b % 256)) && foldEqAscii restA restB
  | _, _ => false

/-- The 256-entry hex nibble table `xvalues` from `uuid.go`, verbatim. -/
def xvalues : List Nat := [
  255, 255, 255, 255, 255, 255, 255, 255, 255, 255, 255, 255, 255, 255, 255, 255,
  255, 255, 255, 255, 255, 255, 255, 255, 255, 255, 255, 255, 255, 255, 255, 255,
  255, 255, 255, 255, 255, 255, 255, 255, 255, 255, 255, 255, 255, 255, 255, 255,
  0, 1, 2, 3, 4, 5, 6, 7, 8, 9, 255, 255, 255, 255, 255, 255,
  255, 10, 11, 12, 13, 14, 15, 255, 255, 255, 255, 255, 255, 255, 255, 255,
  255, 255, 255, 255, 255, 255, 255, 255, 255, 255, 255, 255, 255, 255, 255, 255,
  255, 10, 11, 12, 13, 14, 15, 255, 255, 255, 255, 255, 255, 255, 255, 255,
  255, 255, 255, 255, 255, 255, 255, 255, 255, 255, 255, 255, 255, 255, 255, 255,
  255, 255, 255, 255, 255, 255, 255, 255, 255, 255, 255, 255, 255, 255, 255, 255,
  255, 255, 255, 255, 255, 255, 255, 255, 255, 255, 255, 255, 255, 255, 255, 255,
  255, 255, 255, 255, 255, 255, 255, 255, 255, 255, 255, 255, 255, 255, 255, 255,
  255, 255, 255, 255, 255, 255, 255, 255, 255, 255, 255, 255, 255, 255, 255, 255,
  255, 255, 255, 255, 255, 255, 255, 255, 255, 255, 255, 255, 255, 255, 255, 255,
  255, 255, 255, 255, 255, 255, 255, 255, 255, 255, 255, 255, 255, 255, 255, 255,
  255, 255, 255, 255, 255, 255, 255, 255, 255, 255, 255, 255, 255, 255, 255, 255,
  255, 255, 255, 255, 255, 255, 255, 255, 255, 255, 255, 255, 255, 255, 255, 255]

/-- Index into `xvalues` with a byte (`xvalues[x]` in Go). -/
def xlookup (x : Nat) : Nat := xvalues.getD (x % 256) 255

/-- `xToByte` from `uuid.go`: decode a hex-digit pair; the value is computed
in `byte` arithmetic (`(b1 << 4) | b2`), validity is both nibbles non-255. -/
def xToByte (x1 x2 : Nat) : Nat × Bool :=
  let b1 := xlookup x1
  let b2 := xlookup x2
  (((b1 <<< 4) % 256) ||| b2, b1 != 255 && b2 != 255)

/-- Field start indices of the canonical 36-char form, from the literal array
in `UUIDfromString`/`UUIDfromBytes`. -/
def fieldIdx : List Nat := [0, 2, 4, 6, 9, 11, 14, 16, 19, 21, 24, 26, 28, 30, 32, 34]

/-- The decode loop of `UUIDfromString` over the field-index array. -/
def decodeFields (s : List Nat) : List Nat → Except Err (List Nat)
  | [] => .ok []
  | x :: rest =>
    let p := xToByte (s.getD x 0 % 256) (s.getD (x + 1) 0 % 256)
    if p.2 then
      match decodeFields s rest with
      | .ok vs => .ok (p.1 :: vs)
      | .error e => .error e
    else .error .invalidFormat

/-- Tail of `UUIDfromString` after the length switch: hyphen check at
positions 8, 13, 18, 23, then field decoding. -/
def decodeCanonical (s : List Nat) : Except Err (List Nat) :=
  if s.getD 8 0 % 256 != 45 || s.getD 13 0 % 256 != 45 ||
     s.getD 18 0 % 256 != 45 || s.getD 23 0 % 256 != 45 then
    .error .wrongFormat
  else
    decodeFields s fieldIdx

/-- The 32-hex-character loop of `UUIDfromString` (`for i := range uuid`,
decoding `s[i*2], s[i*2+1]`), over the index list `0..15`. -/
def decode32 (s : List Nat) : List Nat → Except Err (List Nat)
  | [] => .ok []
  | i :: rest =>
    let p := xToByte (s.getD (i * 2) 0 % 256) (s.getD (i * 2 + 1) 0 % 256)
    if p.2 then
      match decode32 s rest with
      | .ok vs => .ok (p.1 :: vs)
      | .error e => .error e
    else .error .wrongFormat

/-- Literal index list `0..15` for the 32-character branch of `UUIDfromString`. -/
def idx16 : List Nat := [0, 1, 2, 3, 4, 5, 6, 7, 8, 9, 10, 11, 12, 13, 14, 15]

/-- `UUIDfromString` from `uuid.go`. The Go `switch len(s)` is modelled as an
if-chain on the length. -/
def UUIDfromString (s : List Nat) : Except Err (List Nat) :=
  if s.length = 32 then
    decode32 s idx16
  else if s.length = 36 then
    decodeCanonical s
  else if s.length = 36 + 2 then
    decodeCanonical (s.drop 1)
  else if s.length = 36 + 9 then
    if !foldEqAscii (s.take 9) urnPrefix then .error .wrongUrnPrefix
    else decodeCanonical (s.drop 9)
  else .error (.wrongLength s.length)

/-- The 32-byte loop of `UUIDfromBytes` (`for i := 0; i < 32; i += 2`,
decoding `b[i], b[i+1]` into `uuid[i/2]`), over the even index list. -/
def decode32Bytes (b : List Nat) : List Nat → Except Err (List Nat)
  | [] => .ok []
  | i :: rest =>
    let p := xToByte (b.getD i 0 % 256) (b.getD (i + 1) 0 % 256)
    if p.2 then
      match decode32Bytes b rest with
      | .ok vs => .ok (p.1 :: vs)
      | .error e => .error e
    else .error .wrongFormat

/-- Literal even index list `0, 2, ..., 30` for the 32-byte branch of
`UUIDfromBytes`. -/
def idxEven : List Nat := [0, 2, 4, 6, 8, 10, 12, 14, 16, 18, 20, 22, 24, 26, 28, 30]

/-- The decode loop of `UUIDfromBytes` over the field-index array (own copy,
as in the source). -/
def decodeFieldsBytes (b : List Nat) : List Nat → Except Err (List Nat)
  | [] => .ok []
  | x :: rest =>
    let p := xToByte (b.getD x 0 % 256) (b.getD (x + 1) 0 % 256)
    if p.2 then
      match decodeFieldsBytes b rest with
      | .ok vs => .ok (p.1 :: vs)
      | .error e => .error e
    else .error .invalidFormat

/-- Tail of `UUIDfromBytes` after the length switch (own copy, as in the source). -/
def decodeCanonicalBytes (b : List Nat) : Except Err (List Nat) :=
  if b.getD 8 0 % 256 != 45 || b.getD 13 0 % 256 != 45 ||
     b.getD 18 0 % 256 != 45 || b.getD 23 0 % 256 != 45 then
    .error .wrongFormat
  else
    decodeFieldsBytes b fieldIdx

/-- `UUIDfromBytes` from `uuid.go`. Note the 45-byte case compares the first
9 bytes against the 8-byte literal `"urn:uuid"` (no colon), exactly as the
source does. -/
def UUIDfromBytes (b : List Nat) : Except Err (List Nat) :=
  if b.length = 32 then
    decode32Bytes b idxEven
  else if b.length = 36 then
    decodeCanonicalBytes b
  else if b.length = 36 + 2 then
    decodeCanonicalBytes (b.drop 1)
  else if b.length = 36 + 9 then
    if !foldEqAscii (b.take 9) urnPrefixNoColon then .error .wrongUrnPrefix
    else decodeCanonicalBytes (b.drop 9)
  else .error .wrongFormat

/-- One lowercase hex digit character (byte) for a nibble, as `fmt`'s `%x`
renders bytes. -/
def hexDigit (n : Nat) : Nat := if n < 10 then 48 + n else 87 + n

/-- Two lowercase hex digit characters of one byte. -/
def hexByte (b : Nat) : List Nat := [hexDigit (b % 256 / 16), hexDigit (b % 16)]

/-- `%x` of a byte slice: two lowercase hex digits per byte. -/
def renderHex : List Nat → List Nat
  | [] => []
  | b :: rest => hexByte b ++ renderHex rest

/-- The `fmt.Sprintf("%x-%x-%x-%x-%x", u[0:4], u[4:6], u[6:8], u[8:10], u[10:])`
rendering every generator uses. -/
def renderCanonical (u : List Nat) : List Nat :=
  renderHex (u.take 4) ++ [45] ++
  renderHex ((u.drop 4).take 2) ++ [45] ++
  renderHex ((u.drop 6).take 2) ++ [45] ++
  renderHex ((u.drop 8).take 2) ++ [45] ++
  renderHex (u.drop 10)

/-- `crypto/rand`'s `rand.Read` of `n` bytes from the entropy buffer: fails
exactly when fewer than `n` bytes remain; on success returns the bytes read
and the remaining buffer. Byte values are normalised with `% 256`. -/
def readBytes (n : Nat) (ent : List Nat) : Except Err (List Nat × List Nat) :=
  if ent.length < n then .error .entropy
  else .ok ((ent.take n).map (fun b => b % 256), ent.drop n)

/-- `binary.BigEndian.PutUint32`: four big-endian bytes of `v`. -/
def putUint32be (v : Nat) : List Nat :=
  [(v >>> 24) % 256, (v >>> 16) % 256, (v >>> 8) % 256, v % 256]

/-- `binary.BigEndian.PutUint16`: two big-endian bytes of `v`. -/
def putUint16be (v : Nat) : List Nat := [(v >>> 8) % 256, v % 256]

/-- `PutUint48` from `uuid.go`: six big-endian bytes of `v`. -/
def PutUint48 (v : Nat) : List Nat :=
  [(v >>> 40) % 256, (v >>> 32) % 256, (v >>> 24) % 256,
   (v >>> 16) % 256, (v >>> 8) % 256, v % 256]

/-- `clockSeqMask` constant from `uuid.go`. -/
def clockSeqMask : Nat := 0x3fff

/-- `UUIDv1Generator` state (the mutex is serialisation, not data). -/
structure UUIDv1Generator where
  LastTimestamp : Nat
  ClockSeq : Nat
  Node : List Nat
  deriving DecidableEq, Repr

/-- `GetRandom14Bit` from `uuid.go`: two random bytes, big-endian, masked to
14 bits. Returns the drawn value and the remaining entropy. -/
def GetRandom14Bit (ent : List Nat) : Except Err (Nat × List Nat) :=
  match readBytes 2 ent with
  | .error e => .error e
  | .ok (b, rest) => .ok (((b.getD 0 0 <<< 8) ||| b.getD 1 0) &&& clockSeqMask, rest)

/-- The clock-sequence selection `switch` of `NewV1` (`uuid.go` lines
97-132): returns the clock sequence to use and the (possibly re-sampled)
timestamp. `timestamp` is the `getTimestamp()` sample taken at the start of
the call; `tNext` is the value the busy-wait loop's re-sampling eventually
returns (the loop exits once the sample differs from `g.LastTimestamp`, so
in any terminating run `tNext ≠ g.LastTimestamp`). -/
def v1pick (g : UUIDv1Generator) (timestamp tNext : Nat) (ent : List Nat) :
    Except Err (Nat × Nat) :=
  if g.LastTimestamp = 0 then
    -- first time init
    match GetRandom14Bit ent with
    | .error e => .error e
    | .ok (cs, _) => .ok (cs, timestamp)
  else if timestamp < g.LastTimestamp then
    -- clock regression - increment clock seq
    .ok ((g.ClockSeq + 1) &&& clockSeqMask, timestamp)
  else if timestamp = g.LastTimestamp then
    -- same timestamp - increment clock seq
    let cs := (g.ClockSeq + 1) &&& clockSeqMask
    if cs = 0 then
      -- overflow: wait till the timestamp changes, then draw a random value
      match GetRandom14Bit ent with
      | .error e => .error e
      | .ok (cs2, _) => .ok (cs2, tNext)
    else .ok (cs, timestamp)
  else
    -- forward timestamp - reset clock seq to random value
    match GetRandom14Bit ent with
    | .error e => .error e
    | .ok (cs, _) => .ok (cs, timestamp)

/-- The byte packing of `NewV1` (`uuid.go` lines 138-153). -/
def v1pack (ts clockSeq : Nat) (node : List Nat) : List Nat :=
  let timeLow := ts &&& 0xFFFFFFFF
  let timeMid := (ts >>> 32) &&& 0xFFFF
  let timeHiAndVersion := ((ts >>> 48) &&& 0x0FFF) ||| 0x1000
  let clockSeqLow := clockSeq &&& 0xFF
  let clockSeqHiAndVariant := ((clockSeq >>> 8) &&& 0x3F) ||| 0x80
  putUint32be timeLow ++ putUint16be timeMid ++
    putUint16be timeHiAndVersion ++ [clockSeqHiAndVariant, clockSeqLow] ++ node

/-- `NewV1` from `uuid.go`, split before the `fmt.Sprintf`: returns the
updated generator state and the 16-byte identifier; `ent` is the entropy
buffer backing `GetRandom14Bit`. -/
def NewV1 (g : UUIDv1Generator) (timestamp tNext : Nat) (ent : List Nat) :
    Except Err (UUIDv1Generator × List Nat) :=
  match v1pick g timestamp tNext ent with
  | .error e => .error e
  | .ok (clockSeq, ts) =>
    .ok ({ LastTimestamp := ts, ClockSeq := clockSeq, Node := g.Node },
      v1pack ts clockSeq g.Node)

/-- The string `NewV1` actually returns: the canonical rendering of the bytes. -/
def NewV1string (g : UUIDv1Generator) (timestamp tNext : Nat) (ent : List Nat) :
    Except Err (UUIDv1Generator × List Nat) :=
  match NewV1 g timestamp tNext ent with
  | .error e => .error e
  | .ok (g2, u) => .ok (g2, renderCanonical u)

/-- Byte list of the Go literal `"uuid_v4-error#1"`, the sentinel string
`UUIDv4asString` returns alongside a random-source error. -/
def uuidV4errSentinel : List Nat :=
  [117, 117, 105, 100, 95, 118, 52, 45, 101, 114, 114, 111, 114, 35, 49]

/-- The byte array `UUIDv4asString` builds before formatting: 16 random
bytes with the version nibble and variant bits overwritten in place. -/
def UUIDv4bytes (ent : List Nat) : Except Err (List Nat) :=
  match readBytes 16 ent with
  | .error e => .error e
  | .ok (b, _) =>
    -- set version 4 to 7th byte [6]
    let b1 := b.set 6 ((b.getD 6 0 &&& 0x0f) ||| 0x40)
    -- rfc 4122 variant to 9th byte [8]
    let b2 := b1.set 8 ((b1.getD 8 0 &&& 0x3f) ||| 0x80)
    .ok b2

/-- `UUIDv4asString` from `uuid.go`: Go returns the pair `(string, error)`;
on a random-source error the string value is the literal sentinel
`"uuid_v4-error#1"` and the error is returned alongside it. -/
def UUIDv4asString (ent : List Nat) : List Nat × Option Err :=
  match UUIDv4bytes ent with
  | .error e => (uuidV4errSentinel, some e)
  | .ok b => (renderCanonical b, none)

/-- `UUIDv4` from `uuid.go`: `res, _ := UUIDv4asString(); return
UUIDfromString(res)` — the error of `UUIDv4asString` is discarded and only
the string value is parsed. -/
def UUIDv4 (ent : List Nat) : Except Err (List Nat) :=
  UUIDfromString (UUIDv4asString ent).1

/-- `UUIDGeneratorV7` state (the mutex is serialisation, not data). The Go
field `LastMillis` is an `int64` Unix-millisecond reading, modelled as `Nat`;
`Counter` is the 12-bit counter. -/
structure UUIDGeneratorV7 where
  LastMillis : Nat
  Counter : Nat
  deriving DecidableEq, Repr

/-- The millisecond-change reset of `NewV7` (`uuid.go` lines 266-269). -/
def v7reset (g : UUIDGeneratorV7) (now : Nat) : UUIDGeneratorV7 :=
  if now ≠ g.LastMillis then { LastMillis := now, Counter := 0 } else g

/-- The counter/rollover selection of `NewV7` (`uuid.go` lines 271-283):
returns the 12-bit sequence value, the state to persist, and the remaining
entropy. -/
def v7counter (g1 : UUIDGeneratorV7) (ent : List Nat) :
    Except Err (Nat × UUIDGeneratorV7 × List Nat) :=
  if g1.Counter < 4095 then
    -- inline counter
    .ok (g1.Counter, { g1 with Counter := g1.Counter + 1 }, ent)
  else
    -- overflow: use 12 random bits
    match readBytes 2 ent with
    | .error e => .error e
    | .ok (rb, rest) => .ok (((rb.getD 0 0 <<< 8) ||| rb.getD 1 0) &&& 0x0FFF, g1, rest)

/-- The byte packing of `NewV7` (`uuid.go` lines 286-301); `rb` is the
10-byte tail-randomness buffer. -/
def v7pack (now counterBits : Nat) (rb : List Nat) : List Nat :=
  PutUint48 now ++
    [(7 <<< 4) ||| ((counterBits >>> 8) % 256), counterBits % 256,
     (rb.getD 0 0 &&& 0x3F) ||| 0x80] ++ (rb.drop 1).take 7

/-- `NewV7` from `uuid.go`, split before the `fmt.Sprintf`: returns the
updated generator state and the 16-byte identifier. `now` is the
`time.Now().UnixMilli()` sample; `ent` is the entropy buffer, read first
(two bytes) by the counter-rollover fallback and then (ten bytes) for the
random tail. -/
def NewV7 (g : UUIDGeneratorV7) (now : Nat) (ent : List Nat) :
    Except Err (UUIDGeneratorV7 × List Nat) :=
  match v7counter (v7reset g now) ent with
  | .error e => .error e
  | .ok (counterBits, g2, ent2) =>
    match readBytes 10 ent2 with
    | .error e => .error e
    | .ok (rb, _) => .ok (g2, v7pack now counterBits rb)

/-- The generation path inlined in `UUIDv7asString` (`uuid.go` lines
323-366), which duplicates the body of `NewV7` on the global generator;
written out again, as in the source. -/
def UUIDv7asStringBody (g : UUIDGeneratorV7) (now : Nat) (ent : List Nat) :
    Except Err (UUIDGeneratorV7 × List Nat) :=
  let g1 := if now ≠ g.LastMillis then { LastMillis := now, Counter := 0 : UUIDGeneratorV7 } else g
  let step : Except Err (Nat × UUIDGeneratorV7 × List Nat) :=
    if g1.Counter < 4095 then
      .ok (g1.Counter, { g1 with Counter := g1.Counter + 1 }, ent)
    else
      match readBytes 2 ent with
      | .error e => .error e
      | .ok (rb, rest) => .ok (((rb.getD 0 0 <<< 8) ||| rb.getD 1 0) &&& 0x0FFF, g1, rest)
  match step with
  | .error e => .error e
  | .ok (counterBits, g2, ent2) =>
    match readBytes 10 ent2 with
    | .error e => .error e
    | .ok (rb, _) =>
      let u := PutUint48 now ++
        [(7 <<< 4) ||| ((counterBits >>> 8) % 256), counterBits % 256,
         (rb.getD 0 0 &&& 0x3F) ||| 0x80] ++ (rb.drop 1).take 7
      .ok (g2, u)

/-! ### General helper lemmas -/

/-- Bridge from a boolean `List.range`-scan to a bounded universal: avoids
the linear-recursion decidability instance on large bounds. -/
theorem ball_of_range_all {k : Nat} {P : Nat → Prop} [DecidablePred P]
    (h : (List.range k).all (fun n => decide (P n)) = true) : ∀ n < k, P n := by
  intro n hn
  exact of_decide_eq_true (List.all_eq_true.mp h n (List.mem_range.mpr hn))

/-- Bitwise or distributes over division by a power of two. -/
theorem or_div_pow (k a b : Nat) : (a ||| b) / 2 ^ k = a / 2 ^ k ||| b / 2 ^ k := by
  induction k generalizing a b with
  | zero => simp
  | succ k ih =>
    have h1 : (a ||| b) / 2 ^ (k + 1) = ((a ||| b) / 2) / 2 ^ k := by
      rw [Nat.div_div_eq_div_mul, Nat.pow_succ, Nat.mul_comm]
    rw [h1, Nat.or_div_two, ih, Nat.div_div_eq_div_mul, Nat.div_div_eq_div_mul,
      Nat.pow_succ, Nat.mul_comm]

/-- Bitwise or commutes with reduction modulo a power of two. -/
theorem or_mod_two_pow (x y k : Nat) : (x ||| y) % 2 ^ k = x % 2 ^ k ||| y % 2 ^ k := by
  apply Nat.eq_of_testBit_eq
  intro i
  by_cases hik : i < k <;>
    simp [Nat.testBit_lor, Nat.testBit_mod_two_pow, hik]

/-- A big-endian byte pair `(a <<< 8) ||| b` is `a * 256 + b` when `b` is a byte. -/
theorem shiftLeft8_or_eq_add (a b : Nat) (hb : b < 256) : (a <<< 8) ||| b = a * 256 + b := by
  have hsh : a <<< 8 = a * 2 ^ 8 := Nat.shiftLeft_eq a 8
  have hdiv : ((a <<< 8) ||| b) / 2 ^ 8 = a := by
    rw [or_div_pow, hsh, Nat.mul_div_cancel a (by norm_num : 0 < 2 ^ 8),
      Nat.div_eq_of_lt (by omega : b < 2 ^ 8)]
    simp
  have hmod : ((a <<< 8) ||| b) % 2 ^ 8 = b := by
    rw [or_mod_two_pow, hsh, Nat.mul_mod_left, Nat.mod_eq_of_lt (by omega : b < 2 ^ 8)]
    simp
  have hsum := Nat.div_add_mod ((a <<< 8) ||| b) (2 ^ 8)
  rw [hdiv, hmod] at hsum
  omega

set_option maxRecDepth 10000 in
/-- Hex-digit pairs produced by the renderer decode back to the byte, with
the exact `% 256` read shape the parser loops use. -/
theorem hexPairOk : ∀ b < 256,
    xToByte (hexDigit (b % 256 / 16) % 256) (hexDigit (b % 16) % 256) = (b, true) :=
  ball_of_range_all (by decide)

/-- A list of length 16 is an explicit 16-element list. -/
theorem exists16 (u : List Nat) (h : u.length = 16) :
    ∃ b0 b1 b2 b3 b4 b5 b6 b7 b8 b9 b10 b11 b12 b13 b14 b15,
      u = [b0, b1, b2, b3, b4, b5, b6, b7, b8, b9, b10, b11, b12, b13, b14, b15] := by
  match u, h with
  | [b0, b1, b2, b3, b4, b5, b6, b7, b8, b9, b10, b11, b12, b13, b14, b15], _ =>
    exact ⟨b0, b1, b2, b3, b4, b5, b6, b7, b8, b9, b10, b11, b12, b13, b14, b15, rfl⟩

/-- If every pair at the given indices decodes successfully, the field
decode loop returns the list of decoded values. -/
theorem decodeFields_render (s : List Nat) :
    ∀ idx : List Nat,
      (∀ x ∈ idx, (xToByte (s.getD x 0 % 256) (s.getD (x + 1) 0 % 256)).2 = true) →
      decodeFields s idx =
        .ok (idx.map (fun x => (xToByte (s.getD x 0 % 256) (s.getD (x + 1) 0 % 256)).1)) := by
  intro idx
  induction idx with
  | nil => intro _; rfl
  | cons x rest ih =>
    intro h
    have hx := h x (by simp)
    have hrest := ih (fun y hy => h y (by simp [hy]))
    simp [List.getD] at hx
    simp [decodeFields, List.getD, hx, hrest]

/-- Same for the 32-hex-character loop of `UUIDfromString`. -/
theorem decode32_render (s : List Nat) :
    ∀ idx : List Nat,
      (∀ i ∈ idx, (xToByte (s.getD (i * 2) 0 % 256) (s.getD (i * 2 + 1) 0 % 256)).2 = true) →
      decode32 s idx =
        .ok (idx.map (fun i => (xToByte (s.getD (i * 2) 0 % 256) (s.getD (i * 2 + 1) 0 % 256)).1)) := by
  intro idx
  induction idx with
  | nil => intro _; rfl
  | cons x rest ih =>
    intro h
    have hx := h x (by simp)
    have hrest := ih (fun y hy => h y (by simp [hy]))
    simp [List.getD] at hx
    simp [decode32, List.getD, hx, hrest]

/-- Nibble-or facts used for the version/variant bit packing, all small
enough to check by enumeration. -/
theorem or16_shift : ∀ a < 16, ∀ b < 16, ((a <<< 4) % 256) ||| b = a * 16 + b := by decide

theorem or_16_div : ∀ x < 16, (x ||| 16) % 256 / 16 = 1 := by decide

theorem or_128_div : ∀ a < 64, (a ||| 128) / 64 = 2 := by decide

theorem or_112_add : ∀ x < 16, 112 ||| x = 112 + x := by decide

theorem or_64_div : ∀ a < 16, (a ||| 64) / 16 = 4 := by decide

theorem or_112_mod : ∀ x < 16, (112 ||| x) % 16 = x := by decide

theorem or_128_lt : ∀ a < 64, a ||| 128 < 256 := by decide

/-- `xlookup` only depends on the byte value of its argument. -/
theorem xlookup_mod (x : Nat) : xlookup x = xlookup (x % 256) := by
  show xvalues.getD (x % 256) 255 = xvalues.getD (x % 256 % 256) 255
  rw [Nat.mod_mod_of_dvd x (dvd_refl 256)]

set_option maxRecDepth 10000 in
/-- Entry-by-entry characterisation of the `xvalues` table. -/
theorem xlookup_char : ∀ c < 256, xlookup c =
    (if 48 ≤ c ∧ c ≤ 57 then c - 48
     else if 65 ≤ c ∧ c ≤ 70 then c - 55
     else if 97 ≤ c ∧ c ≤ 102 then c - 87
     else 255) :=
  ball_of_range_all (by decide)

/-- Every table entry is the sentinel or a nibble value. -/
theorem xlookup_cases (x : Nat) : xlookup x = 255 ∨ xlookup x < 16 := by
  rw [xlookup_mod]
  rw [xlookup_char (x % 256) (Nat.mod_lt x (by norm_num))]
  split_ifs <;> omega

/-- Byte list of `"00000000-0000-1000-8000-000000000000"` (the spec's worked parse example). -/
def strCanonZeros : List Nat := [48, 48, 48, 48, 48, 48, 48, 48, 45, 48, 48, 48, 48, 45, 49, 48, 48, 48, 45, 56, 48, 48, 48, 45, 48, 48, 48, 48, 48, 48, 48, 48, 48, 48, 48, 48]

/-- Byte list of a 35-character all-zero string. -/
def str35 : List Nat := [48, 48, 48, 48, 48, 48, 48, 48, 48, 48, 48, 48, 48, 48, 48, 48, 48, 48, 48, 48, 48, 48, 48, 48, 48, 48, 48, 48, 48, 48, 48, 48, 48, 48, 48]

/-- Byte list of `"000000000-000-0000-0000-000000000000"`: 36 characters
with the first hyphen shifted to position 9. -/
def strHyphenMisplaced : List Nat := [48, 48, 48, 48, 48, 48, 48, 48, 48, 45, 48, 48, 48, 45, 48, 48, 48, 48, 45, 48, 48, 48, 48, 45, 48, 48, 48, 48, 48, 48, 48, 48, 48, 48, 48, 48]

/-- Byte list of `"0000000g-0000-0000-0000-000000000000"`: hyphens in
place, a non-hex `g` inside the first field. -/
def strNonHex : List Nat := [48, 48, 48, 48, 48, 48, 48, 103, 45, 48, 48, 48, 48, 45, 48, 48, 48, 48, 45, 48, 48, 48, 48, 45, 48, 48, 48, 48, 48, 48, 48, 48, 48, 48, 48, 48]

/-- Byte list of `"urn:uudi:00000000-0000-1000-8000-000000000000"`: the swapped-letters prefix from the spec's rejection property. -/
def strUrnUudi : List Nat := [117, 114, 110, 58, 117, 117, 100, 105, 58, 48, 48, 48, 48, 48, 48, 48, 48, 45, 48, 48, 48, 48, 45, 49, 48, 48, 48, 45, 56, 48, 48, 48, 45, 48, 48, 48, 48, 48, 48, 48, 48, 48, 48, 48, 48]

/-- Byte list of `"urn:uuid:00000000-0000-1000-8000-000000000000"`. -/
def strUrnZeros : List Nat := [117, 114, 110, 58, 117, 117, 105, 100, 58, 48, 48, 48, 48, 48, 48, 48, 48, 45, 48, 48, 48, 48, 45, 49, 48, 48, 48, 45, 56, 48, 48, 48, 45, 48, 48, 48, 48, 48, 48, 48, 48, 48, 48, 48, 48]

/-- C9: the 256-entry lookup table maps exactly the bytes `0-9`, `A-F`,
`a-f` to their nibble values and every other byte to the sentinel 255, and
`xToByte` succeeds iff both lookups are non-sentinel, in which case the
decoded byte is the high nibble shifted left 4 or-ed with the low nibble. -/
theorem C9_hex_table :
    (∀ c < 256, xlookup c =
      (if 48 ≤ c ∧ c ≤ 57 then c - 48
       else if 65 ≤ c ∧ c ≤ 70 then c - 55
       else if 97 ≤ c ∧ c ≤ 102 then c - 87
       else 255)) ∧
    (∀ x1 x2 : Nat,
      ((xToByte x1 x2).2 = true ↔ xlookup x1 ≠ 255 ∧ xlookup x2 ≠ 255) ∧
      ((xToByte x1 x2).2 = true → (xToByte x1 x2).1 = xlookup x1 * 16 + xlookup x2)) := by
  refine ⟨xlookup_char, fun x1 x2 => ⟨?_, ?_⟩⟩
  · show (xlookup x1 != 255 && xlookup x2 != 255) = true ↔ _
    simp [Bool.and_eq_true, bne_iff_ne]
  · intro hv
    have hv2 : (xlookup x1 != 255 && xlookup x2 != 255) = true := hv
    simp only [Bool.and_eq_true, bne_iff_ne, ne_eq] at hv2
    have b1lt : xlookup x1 < 16 := (xlookup_cases x1).resolve_left hv2.1
    have b2lt : xlookup x2 < 16 := (xlookup_cases x2).resolve_left hv2.2
    show ((xlookup x1 <<< 4) % 256) ||| xlookup x2 = _
    exact or16_shift (xlookup x1) b1lt (xlookup x2) b2lt

set_option maxRecDepth 4000 in
/-- Witness for C9 at the concrete bytes `f`, `a`, `F`. -/
theorem C9_hex_table_witness :
    xlookup 102 = 15 ∧ (xToByte 97 70).1 = xlookup 97 * 16 + xlookup 70 :=
  ⟨(C9_hex_table.1 102 (by norm_num)).trans (by decide),
   (C9_hex_table.2 97 70).2 (by decide)⟩

set_option maxRecDepth 10000 in
/-- C5: inputs whose length is not 32, 36, 38 or 45 are rejected with a
length error; hyphenated forms that parse successfully have hyphens at
positions 8, 13, 18, 23 of the unwrapped 36-character body; and the four
concrete malformed inputs of the spec are each rejected. -/
theorem C5_reject :
    (∀ s : List Nat,
      s.length ≠ 32 → s.length ≠ 36 → s.length ≠ 38 → s.length ≠ 45 →
      UUIDfromString s = .error (.wrongLength s.length)) ∧
    (∀ s u, s.length = 36 → UUIDfromString s = .ok u →
      s.getD 8 0 % 256 = 45 ∧ s.getD 13 0 % 256 = 45 ∧
      s.getD 18 0 % 256 = 45 ∧ s.getD 23 0 % 256 = 45) ∧
    (∀ s u, s.length = 38 → UUIDfromString s = .ok u →
      (s.drop 1).getD 8 0 % 256 = 45 ∧ (s.drop 1).getD 13 0 % 256 = 45 ∧
      (s.drop 1).getD 18 0 % 256 = 45 ∧ (s.drop 1).getD 23 0 % 256 = 45) ∧
    (∀ s u, s.length = 45 → UUIDfromString s = .ok u →
      (s.drop 9).getD 8 0 % 256 = 45 ∧ (s.drop 9).getD 13 0 % 256 = 45 ∧
      (s.drop 9).getD 18 0 % 256 = 45 ∧ (s.drop 9).getD 23 0 % 256 = 45) ∧
    UUIDfromString str35 = .error (.wrongLength 35) ∧
    UUIDfromString strHyphenMisplaced = .error .wrongFormat ∧
    UUIDfromString strNonHex = .error .invalidFormat ∧
    UUIDfromString strUrnUudi = .error .wrongUrnPrefix := by
  refine ⟨?_, ?_, ?_, ?_, rfl, rfl, rfl, rfl⟩
  · intro s h32 h36 h38 h45
    unfold UUIDfromString
    rw [if_neg h32, if_neg h36, if_neg (by omega : ¬s.length = 36 + 2),
      if_neg (by omega : ¬s.length = 36 + 9)]
  · intro s u hlen hok
    unfold UUIDfromString at hok
    rw [if_neg (by omega : ¬s.length = 32), if_pos hlen] at hok
    unfold decodeCanonical at hok
    split at hok
    · exact absurd hok (by simp)
    · rename_i hguard
      simp only [Bool.or_eq_true, bne_iff_ne, ne_eq, not_or, not_not] at hguard
      exact ⟨hguard.1.1.1, hguard.1.1.2, hguard.1.2, hguard.2⟩
  · intro s u hlen hok
    unfold UUIDfromString at hok
    rw [if_neg (by omega : ¬s.length = 32), if_neg (by omega : ¬s.length = 36),
      if_pos (by omega : s.length = 36 + 2)] at hok
    unfold decodeCanonical at hok
    split at hok
    · exact absurd hok (by simp)
    · rename_i hguard
      simp only [Bool.or_eq_true, bne_iff_ne, ne_eq, not_or, not_not] at hguard
      exact ⟨hguard.1.1.1, hguard.1.1.2, hguard.1.2, hguard.2⟩
  · intro s u hlen hok
    unfold UUIDfromString at hok
    rw [if_neg (by omega : ¬s.length = 32), if_neg (by omega : ¬s.length = 36),
      if_neg (by omega : ¬s.length = 36 + 2), if_pos (by omega : s.length = 36 + 9)] at hok
    split at hok
    · exact absurd hok (by simp)
    · unfold decodeCanonical at hok
      split at hok
      · exact absurd hok (by simp)
      · rename_i hguard
        simp only [Bool.or_eq_true, bne_iff_ne, ne_eq, not_or, not_not] at hguard
        exact ⟨hguard.1.1.1, hguard.1.1.2, hguard.1.2, hguard.2⟩

set_option maxRecDepth 4000 in
/-- Witness for C5: the empty string is rejected by length, and the
spec's example canonical string satisfies the hyphen-position condition. -/
theorem C5_reject_witness :
    UUIDfromString ([] : List Nat) = .error (.wrongLength 0) ∧
    strCanonZeros.getD 8 0 % 256 = 45 :=
  ⟨C5_reject.1 [] (by decide) (by decide) (by decide) (by decide),
   (C5_reject.2.1 strCanonZeros [0, 0, 0, 0, 0, 0, 16, 0, 128, 0, 0, 0, 0, 0, 0, 0]
     rfl rfl).1⟩

set_option maxRecDepth 10000 in
/-- The canonical field-decode loop on a 36-entry list with hyphens at
positions 8, 13, 18, 23, when every hex pair decodes successfully. -/
theorem decodeFields_explicit (tail : List Nat)
    (v0 v1 v2 v3 v4 v5 v6 v7 v8 v9 v10 v11 v12 v13 v14 v15 : Nat)
    (c00 c01 c10 c11 c20 c21 c30 c31 c40 c41 c50 c51 c60 c61 c70 c71 c80 c81 c90 c91 c100 c101 c110 c111 c120 c121 c130 c131 c140 c141 c150 c151 : Nat)
    (e0 : xToByte (c00 % 256) (c01 % 256) = (v0, true))
    (e1 : xToByte (c10 % 256) (c11 % 256) = (v1, true))
    (e2 : xToByte (c20 % 256) (c21 % 256) = (v2, true))
    (e3 : xToByte (c30 % 256) (c31 % 256) = (v3, true))
    (e4 : xToByte (c40 % 256) (c41 % 256) = (v4, true))
    (e5 : xToByte (c50 % 256) (c51 % 256) = (v5, true))
    (e6 : xToByte (c60 % 256) (c61 % 256) = (v6, true))
    (e7 : xToByte (c70 % 256) (c71 % 256) = (v7, true))
    (e8 : xToByte (c80 % 256) (c81 % 256) = (v8, true))
    (e9 : xToByte (c90 % 256) (c91 % 256) = (v9, true))
    (e10 : xToByte (c100 % 256) (c101 % 256) = (v10, true))
    (e11 : xToByte (c110 % 256) (c111 % 256) = (v11, true))
    (e12 : xToByte (c120 % 256) (c121 % 256) = (v12, true))
    (e13 : xToByte (c130 % 256) (c131 % 256) = (v13, true))
    (e14 : xToByte (c140 % 256) (c141 % 256) = (v14, true))
    (e15 : xToByte (c150 % 256) (c151 % 256) = (v15, true)) :
    decodeFields (c00 :: c01 :: c10 :: c11 :: c20 :: c21 :: c30 :: c31 :: 45 :: c40 :: c41 :: c50 :: c51 :: 45 :: c60 :: c61 :: c70 :: c71 :: 45 :: c80 :: c81 :: c90 :: c91 :: 45 :: c100 :: c101 :: c110 :: c111 :: c120 :: c121 :: c130 :: c131 :: c140 :: c141 :: c150 :: c151 :: tail) fieldIdx = .ok [v0, v1, v2, v3, v4, v5, v6, v7, v8, v9, v10, v11, v12, v13, v14, v15] := by
  have hvalid : ∀ x ∈ fieldIdx,
      (xToByte ((c00 :: c01 :: c10 :: c11 :: c20 :: c21 :: c30 :: c31 :: 45 :: c40 :: c41 :: c50 :: c51 :: 45 :: c60 :: c61 :: c70 :: c71 :: 45 :: c80 :: c81 :: c90 :: c91 :: 45 :: c100 :: c101 :: c110 :: c111 :: c120 :: c121 :: c130 :: c131 :: c140 :: c141 :: c150 :: c151 :: tail).getD x 0 % 256)
        ((c00 :: c01 :: c10 :: c11 :: c20 :: c21 :: c30 :: c31 :: 45 :: c40 :: c41 :: c50 :: c51 :: 45 :: c60 :: c61 :: c70 :: c71 :: 45 :: c80 :: c81 :: c90 :: c91 :: 45 :: c100 :: c101 :: c110 :: c111 :: c120 :: c121 :: c130 :: c131 :: c140 :: c141 :: c150 :: c151 :: tail).getD (x + 1) 0 % 256)).2 = true := by
    intro x hx
    simp only [fieldIdx, List.mem_cons, List.not_mem_nil, or_false] at hx
    rcases hx with rfl|rfl|rfl|rfl|rfl|rfl|rfl|rfl|rfl|rfl|rfl|rfl|rfl|rfl|rfl|rfl
    · exact congrArg Prod.snd e0
    · exact congrArg Prod.snd e1
    · exact congrArg Prod.snd e2
    · exact congrArg Prod.snd e3
    · exact congrArg Prod.snd e4
    · exact congrArg Prod.snd e5
    · exact congrArg Prod.snd e6
    · exact congrArg Prod.snd e7
    · exact congrArg Prod.snd e8
    · exact congrArg Prod.snd e9
    · exact congrArg Prod.snd e10
    · exact congrArg Prod.snd e11
    · exact congrArg Prod.snd e12
    · exact congrArg Prod.snd e13
    · exact congrArg Prod.snd e14
    · exact congrArg Prod.snd e15
  rw [decodeFields_render (c00 :: c01 :: c10 :: c11 :: c20 :: c21 :: c30 :: c31 :: 45 :: c40 :: c41 :: c50 :: c51 :: 45 :: c60 :: c61 :: c70 :: c71 :: 45 :: c80 :: c81 :: c90 :: c91 :: 45 :: c100 :: c101 :: c110 :: c111 :: c120 :: c121 :: c130 :: c131 :: c140 :: c141 :: c150 :: c151 :: tail) fieldIdx hvalid]
  show Except.ok
    [
      (xToByte (c00 % 256) (c01 % 256)).1,
      (xToByte (c10 % 256) (c11 % 256)).1,
      (xToByte (c20 % 256) (c21 % 256)).1,
      (xToByte (c30 % 256) (c31 % 256)).1,
      (xToByte (c40 % 256) (c41 % 256)).1,
      (xToByte (c50 % 256) (c51 % 256)).1,
      (xToByte (c60 % 256) (c61 % 256)).1,
      (xToByte (c70 % 256) (c71 % 256)).1,
      (xToByte (c80 % 256) (c81 % 256)).1,
      (xToByte (c90 % 256) (c91 % 256)).1,
      (xToByte (c100 % 256) (c101 % 256)).1,
      (xToByte (c110 % 256) (c111 % 256)).1,
      (xToByte (c120 % 256) (c121 % 256)).1,
      (xToByte (c130 % 256) (c131 % 256)).1,
      (xToByte (c140 % 256) (c141 % 256)).1,
      (xToByte (c150 % 256) (c151 % 256)).1] = Except.ok [v0, v1, v2, v3, v4, v5, v6, v7, v8, v9, v10, v11, v12, v13, v14, v15]
  rw [e0, e1, e2, e3, e4, e5, e6, e7, e8, e9, e10, e11, e12, e13, e14, e15]

set_option maxRecDepth 10000 in
/-- The 32-hex-character decode loop on an explicit 32-entry list, when
every hex pair decodes successfully. -/
theorem decode32_explicit (tail : List Nat)
    (v0 v1 v2 v3 v4 v5 v6 v7 v8 v9 v10 v11 v12 v13 v14 v15 : Nat)
    (c00 c01 c10 c11 c20 c21 c30 c31 c40 c41 c50 c51 c60 c61 c70 c71 c80 c81 c90 c91 c100 c101 c110 c111 c120 c121 c130 c131 c140 c141 c150 c151 : Nat)
    (e0 : xToByte (c00 % 256) (c01 % 256) = (v0, true))
    (e1 : xToByte (c10 % 256) (c11 % 256) = (v1, true))
    (e2 : xToByte (c20 % 256) (c21 % 256) = (v2, true))
    (e3 : xToByte (c30 % 256) (c31 % 256) = (v3, true))
    (e4 : xToByte (c40 % 256) (c41 % 256) = (v4, true))
    (e5 : xToByte (c50 % 256) (c51 % 256) = (v5, true))
    (e6 : xToByte (c60 % 256) (c61 % 256) = (v6, true))
    (e7 : xToByte (c70 % 256) (c71 % 256) = (v7, true))
    (e8 : xToByte (c80 % 256) (c81 % 256) = (v8, true))
    (e9 : xToByte (c90 % 256) (c91 % 256) = (v9, true))
    (e10 : xToByte (c100 % 256) (c101 % 256) = (v10, true))
    (e11 : xToByte (c110 % 256) (c111 % 256) = (v11, true))
    (e12 : xToByte (c120 % 256) (c121 % 256) = (v12, true))
    (e13 : xToByte (c130 % 256) (c131 % 256) = (v13, true))
    (e14 : xToByte (c140 % 256) (c141 % 256) = (v14, true))
    (e15 : xToByte (c150 % 256) (c151 % 256) = (v15, true)) :
    decode32 (c00 :: c01 :: c10 :: c11 :: c20 :: c21 :: c30 :: c31 :: c40 :: c41 :: c50 :: c51 :: c60 :: c61 :: c70 :: c71 :: c80 :: c81 :: c90 :: c91 :: c100 :: c101 :: c110 :: c111 :: c120 :: c121 :: c130 :: c131 :: c140 :: c141 :: c150 :: c151 :: tail) idx16 = .ok [v0, v1, v2, v3, v4, v5, v6, v7, v8, v9, v10, v11, v12, v13, v14, v15] := by
  have hvalid : ∀ i ∈ idx16,
      (xToByte ((c00 :: c01 :: c10 :: c11 :: c20 :: c21 :: c30 :: c31 :: c40 :: c41 :: c50 :: c51 :: c60 :: c61 :: c70 :: c71 :: c80 :: c81 :: c90 :: c91 :: c100 :: c101 :: c110 :: c111 :: c120 :: c121 :: c130 :: c131 :: c140 :: c141 :: c150 :: c151 :: tail).getD (i * 2) 0 % 256)
        ((c00 :: c01 :: c10 :: c11 :: c20 :: c21 :: c30 :: c31 :: c40 :: c41 :: c50 :: c51 :: c60 :: c61 :: c70 :: c71 :: c80 :: c81 :: c90 :: c91 :: c100 :: c101 :: c110 :: c111 :: c120 :: c121 :: c130 :: c131 :: c140 :: c141 :: c150 :: c151 :: tail).getD (i * 2 + 1) 0 % 256)).2 = true := by
    intro i hi
    simp only [idx16, List.mem_cons, List.not_mem_nil, or_false] at hi
    rcases hi with rfl|rfl|rfl|rfl|rfl|rfl|rfl|rfl|rfl|rfl|rfl|rfl|rfl|rfl|rfl|rfl
    · exact congrArg Prod.snd e0
    · exact congrArg Prod.snd e1
    · exact congrArg Prod.snd e2
    · exact congrArg Prod.snd e3
    · exact congrArg Prod.snd e4
    · exact congrArg Prod.snd e5
    · exact congrArg Prod.snd e6
    · exact congrArg Prod.snd e7
    · exact congrArg Prod.snd e8
    · exact congrArg Prod.snd e9
    · exact congrArg Prod.snd e10
    · exact congrArg Prod.snd e11
    · exact congrArg Prod.snd e12
    · exact congrArg Prod.snd e13
    · exact congrArg Prod.snd e14
    · exact congrArg Prod.snd e15
  rw [decode32_render (c00 :: c01 :: c10 :: c11 :: c20 :: c21 :: c30 :: c31 :: c40 :: c41 :: c50 :: c51 :: c60 :: c61 :: c70 :: c71 :: c80 :: c81 :: c90 :: c91 :: c100 :: c101 :: c110 :: c111 :: c120 :: c121 :: c130 :: c131 :: c140 :: c141 :: c150 :: c151 :: tail) idx16 hvalid]
  show Except.ok
    [
      (xToByte (c00 % 256) (c01 % 256)).1,
      (xToByte (c10 % 256) (c11 % 256)).1,
      (xToByte (c20 % 256) (c21 % 256)).1,
      (xToByte (c30 % 256) (c31 % 256)).1,
      (xToByte (c40 % 256) (c41 % 256)).1,
      (xToByte (c50 % 256) (c51 % 256)).1,
      (xToByte (c60 % 256) (c61 % 256)).1,
      (xToByte (c70 % 256) (c71 % 256)).1,
      (xToByte (c80 % 256) (c81 % 256)).1,
      (xToByte (c90 % 256) (c91 % 256)).1,
      (xToByte (c100 % 256) (c101 % 256)).1,
      (xToByte (c110 % 256) (c111 % 256)).1,
      (xToByte (c120 % 256) (c121 % 256)).1,
      (xToByte (c130 % 256) (c131 % 256)).1,
      (xToByte (c140 % 256) (c141 % 256)).1,
      (xToByte (c150 % 256) (c151 % 256)).1] = Except.ok [v0, v1, v2, v3, v4, v5, v6, v7, v8, v9, v10, v11, v12, v13, v14, v15]
  rw [e0, e1, e2, e3, e4, e5, e6, e7, e8, e9, e10, e11, e12, e13, e14, e15]

set_option maxRecDepth 10000 in
set_option maxHeartbeats 4000000 in
/-- Decoding the canonical rendering of 16 bytes (with any trailing
characters, which the parser never inspects) recovers exactly those bytes. -/
theorem decodeCanonical_render (tail : List Nat)
    (b0 b1 b2 b3 b4 b5 b6 b7 b8 b9 b10 b11 b12 b13 b14 b15 : Nat)
    (h0 : b0 < 256) (h1 : b1 < 256) (h2 : b2 < 256) (h3 : b3 < 256) (h4 : b4 < 256) (h5 : b5 < 256) (h6 : b6 < 256) (h7 : b7 < 256) (h8 : b8 < 256) (h9 : b9 < 256) (h10 : b10 < 256) (h11 : b11 < 256) (h12 : b12 < 256) (h13 : b13 < 256) (h14 : b14 < 256) (h15 : b15 < 256) :
    decodeCanonical (renderCanonical [b0, b1, b2, b3, b4, b5, b6, b7, b8, b9, b10, b11, b12, b13, b14, b15] ++ tail) = .ok [b0, b1, b2, b3, b4, b5, b6, b7, b8, b9, b10, b11, b12, b13, b14, b15] := by
  rw [show renderCanonical [b0, b1, b2, b3, b4, b5, b6, b7, b8, b9, b10, b11, b12, b13, b14, b15] ++ tail =
      hexDigit (b0 % 256 / 16) :: hexDigit (b0 % 16) ::
      hexDigit (b1 % 256 / 16) :: hexDigit (b1 % 16) ::
      hexDigit (b2 % 256 / 16) :: hexDigit (b2 % 16) ::
      hexDigit (b3 % 256 / 16) :: hexDigit (b3 % 16) ::
      45 ::
      hexDigit (b4 % 256 / 16) :: hexDigit (b4 % 16) ::
      hexDigit (b5 % 256 / 16) :: hexDigit (b5 % 16) ::
      45 ::
      hexDigit (b6 % 256 / 16) :: hexDigit (b6 % 16) ::
      hexDigit (b7 % 256 / 16) :: hexDigit (b7 % 16) ::
      45 ::
      hexDigit (b8 % 256 / 16) :: hexDigit (b8 % 16) ::
      hexDigit (b9 % 256 / 16) :: hexDigit (b9 % 16) ::
      45 ::
      hexDigit (b10 % 256 / 16) :: hexDigit (b10 % 16) ::
      hexDigit (b11 % 256 / 16) :: hexDigit (b11 % 16) ::
      hexDigit (b12 % 256 / 16) :: hexDigit (b12 % 16) ::
      hexDigit (b13 % 256 / 16) :: hexDigit (b13 % 16) ::
      hexDigit (b14 % 256 / 16) :: hexDigit (b14 % 16) ::
      hexDigit (b15 % 256 / 16) :: hexDigit (b15 % 16) :: tail from rfl]
  show decodeFields
      (hexDigit (b0 % 256 / 16) :: hexDigit (b0 % 16) ::
      hexDigit (b1 % 256 / 16) :: hexDigit (b1 % 16) ::
      hexDigit (b2 % 256 / 16) :: hexDigit (b2 % 16) ::
      hexDigit (b3 % 256 / 16) :: hexDigit (b3 % 16) ::
      45 ::
      hexDigit (b4 % 256 / 16) :: hexDigit (b4 % 16) ::
      hexDigit (b5 % 256 / 16) :: hexDigit (b5 % 16) ::
      45 ::
      hexDigit (b6 % 256 / 16) :: hexDigit (b6 % 16) ::
      hexDigit (b7 % 256 / 16) :: hexDigit (b7 % 16) ::
      45 ::
      hexDigit (b8 % 256 / 16) :: hexDigit (b8 % 16) ::
      hexDigit (b9 % 256 / 16) :: hexDigit (b9 % 16) ::
      45 ::
      hexDigit (b10 % 256 / 16) :: hexDigit (b10 % 16) ::
      hexDigit (b11 % 256 / 16) :: hexDigit (b11 % 16) ::
      hexDigit (b12 % 256 / 16) :: hexDigit (b12 % 16) ::
      hexDigit (b13 % 256 / 16) :: hexDigit (b13 % 16) ::
      hexDigit (b14 % 256 / 16) :: hexDigit (b14 % 16) ::
      hexDigit (b15 % 256 / 16) :: hexDigit (b15 % 16) :: tail) fieldIdx = .ok [b0, b1, b2, b3, b4, b5, b6, b7, b8, b9, b10, b11, b12, b13, b14, b15]
  exact decodeFields_explicit tail b0 b1 b2 b3 b4 b5 b6 b7 b8 b9 b10 b11 b12 b13 b14 b15
    (hexDigit (b0 % 256 / 16)) (hexDigit (b0 % 16))
    (hexDigit (b1 % 256 / 16)) (hexDigit (b1 % 16))
    (hexDigit (b2 % 256 / 16)) (hexDigit (b2 % 16))
    (hexDigit (b3 % 256 / 16)) (hexDigit (b3 % 16))
    (hexDigit (b4 % 256 / 16)) (hexDigit (b4 % 16))
    (hexDigit (b5 % 256 / 16)) (hexDigit (b5 % 16))
    (hexDigit (b6 % 256 / 16)) (hexDigit (b6 % 16))
    (hexDigit (b7 % 256 / 16)) (hexDigit (b7 % 16))
    (hexDigit (b8 % 256 / 16)) (hexDigit (b8 % 16))
    (hexDigit (b9 % 256 / 16)) (hexDigit (b9 % 16))
    (hexDigit (b10 % 256 / 16)) (hexDigit (b10 % 16))
    (hexDigit (b11 % 256 / 16)) (hexDigit (b11 % 16))
    (hexDigit (b12 % 256 / 16)) (hexDigit (b12 % 16))
    (hexDigit (b13 % 256 / 16)) (hexDigit (b13 % 16))
    (hexDigit (b14 % 256 / 16)) (hexDigit (b14 % 16))
    (hexDigit (b15 % 256 / 16)) (hexDigit (b15 % 16))
    (hexPairOk b0 h0)
    (hexPairOk b1 h1)
    (hexPairOk b2 h2)
    (hexPairOk b3 h3)
    (hexPairOk b4 h4)
    (hexPairOk b5 h5)
    (hexPairOk b6 h6)
    (hexPairOk b7 h7)
    (hexPairOk b8 h8)
    (hexPairOk b9 h9)
    (hexPairOk b10 h10)
    (hexPairOk b11 h11)
    (hexPairOk b12 h12)
    (hexPairOk b13 h13)
    (hexPairOk b14 h14)
    (hexPairOk b15 h15)

set_option maxRecDepth 10000 in
set_option maxHeartbeats 4000000 in
/-- Decoding the 32-hex-character rendering of 16 bytes recovers exactly
those bytes. -/
theorem decode32_renderHex
    (b0 b1 b2 b3 b4 b5 b6 b7 b8 b9 b10 b11 b12 b13 b14 b15 : Nat)
    (h0 : b0 < 256) (h1 : b1 < 256) (h2 : b2 < 256) (h3 : b3 < 256) (h4 : b4 < 256) (h5 : b5 < 256) (h6 : b6 < 256) (h7 : b7 < 256) (h8 : b8 < 256) (h9 : b9 < 256) (h10 : b10 < 256) (h11 : b11 < 256) (h12 : b12 < 256) (h13 : b13 < 256) (h14 : b14 < 256) (h15 : b15 < 256) :
    decode32 (renderHex [b0, b1, b2, b3, b4, b5, b6, b7, b8, b9, b10, b11, b12, b13, b14, b15]) idx16 = .ok [b0, b1, b2, b3, b4, b5, b6, b7, b8, b9, b10, b11, b12, b13, b14, b15] := by
  rw [show renderHex [b0, b1, b2, b3, b4, b5, b6, b7, b8, b9, b10, b11, b12, b13, b14, b15] =
      hexDigit (b0 % 256 / 16) :: hexDigit (b0 % 16) ::
      hexDigit (b1 % 256 / 16) :: hexDigit (b1 % 16) ::
      hexDigit (b2 % 256 / 16) :: hexDigit (b2 % 16) ::
      hexDigit (b3 % 256 / 16) :: hexDigit (b3 % 16) ::
      hexDigit (b4 % 256 / 16) :: hexDigit (b4 % 16) ::
      hexDigit (b5 % 256 / 16) :: hexDigit (b5 % 16) ::
      hexDigit (b6 % 256 / 16) :: hexDigit (b6 % 16) ::
      hexDigit (b7 % 256 / 16) :: hexDigit (b7 % 16) ::
      hexDigit (b8 % 256 / 16) :: hexDigit (b8 % 16) ::
      hexDigit (b9 % 256 / 16) :: hexDigit (b9 % 16) ::
      hexDigit (b10 % 256 / 16) :: hexDigit (b10 % 16) ::
      hexDigit (b11 % 256 / 16) :: hexDigit (b11 % 16) ::
      hexDigit (b12 % 256 / 16) :: hexDigit (b12 % 16) ::
      hexDigit (b13 % 256 / 16) :: hexDigit (b13 % 16) ::
      hexDigit (b14 % 256 / 16) :: hexDigit (b14 % 16) ::
      hexDigit (b15 % 256 / 16) :: hexDigit (b15 % 16) :: ([] : List Nat) from rfl]
  exact decode32_explicit [] b0 b1 b2 b3 b4 b5 b6 b7 b8 b9 b10 b11 b12 b13 b14 b15
    (hexDigit (b0 % 256 / 16)) (hexDigit (b0 % 16))
    (hexDigit (b1 % 256 / 16)) (hexDigit (b1 % 16))
    (hexDigit (b2 % 256 / 16)) (hexDigit (b2 % 16))
    (hexDigit (b3 % 256 / 16)) (hexDigit (b3 % 16))
    (hexDigit (b4 % 256 / 16)) (hexDigit (b4 % 16))
    (hexDigit (b5 % 256 / 16)) (hexDigit (b5 % 16))
    (hexDigit (b6 % 256 / 16)) (hexDigit (b6 % 16))
    (hexDigit (b7 % 256 / 16)) (hexDigit (b7 % 16))
    (hexDigit (b8 % 256 / 16)) (hexDigit (b8 % 16))
    (hexDigit (b9 % 256 / 16)) (hexDigit (b9 % 16))
    (hexDigit (b10 % 256 / 16)) (hexDigit (b10 % 16))
    (hexDigit (b11 % 256 / 16)) (hexDigit (b11 % 16))
    (hexDigit (b12 % 256 / 16)) (hexDigit (b12 % 16))
    (hexDigit (b13 % 256 / 16)) (hexDigit (b13 % 16))
    (hexDigit (b14 % 256 / 16)) (hexDigit (b14 % 16))
    (hexDigit (b15 % 256 / 16)) (hexDigit (b15 % 16))
    (hexPairOk b0 h0)
    (hexPairOk b1 h1)
    (hexPairOk b2 h2)
    (hexPairOk b3 h3)
    (hexPairOk b4 h4)
    (hexPairOk b5 h5)
    (hexPairOk b6 h6)
    (hexPairOk b7 h7)
    (hexPairOk b8 h8)
    (hexPairOk b9 h9)
    (hexPairOk b10 h10)
    (hexPairOk b11 h11)
    (hexPairOk b12 h12)
    (hexPairOk b13 h13)
    (hexPairOk b14 h14)
    (hexPairOk b15 h15)

/-- Branch lemmas for the length switch of `UUIDfromString`. -/
theorem UUIDfromString_32 (s : List Nat) (h : s.length = 32) :
    UUIDfromString s = decode32 s idx16 := by
  unfold UUIDfromString
  rw [if_pos h]

theorem UUIDfromString_36 (s : List Nat) (h : s.length = 36) :
    UUIDfromString s = decodeCanonical s := by
  unfold UUIDfromString
  rw [if_neg (by omega : ¬s.length = 32), if_pos h]

theorem UUIDfromString_38 (s : List Nat) (h : s.length = 38) :
    UUIDfromString s = decodeCanonical (s.drop 1) := by
  unfold UUIDfromString
  rw [if_neg (by omega : ¬s.length = 32), if_neg (by omega : ¬s.length = 36),
    if_pos (by omega : s.length = 36 + 2)]

theorem UUIDfromString_38cons (a : Nat) (s2 : List Nat) (h : (a :: s2).length = 38) :
    UUIDfromString (a :: s2) = decodeCanonical s2 := by
  rw [UUIDfromString_38 (a :: s2) h]
  rfl

theorem UUIDfromString_45 (s : List Nat) (h : s.length = 45)
    (hfold : foldEqAscii (s.take 9) urnPrefix = true) :
    UUIDfromString s = decodeCanonical (s.drop 9) := by
  unfold UUIDfromString
  rw [if_neg (by omega : ¬s.length = 32), if_neg (by omega : ¬s.length = 36),
    if_neg (by omega : ¬s.length = 36 + 2), if_pos (by omega : s.length = 36 + 9),
    hfold]
  rfl


set_option maxRecDepth 10000 in
set_option maxHeartbeats 4000000 in
/-- Round-trip through the canonical rendering, for any 16-byte value. -/
theorem roundtrip_canonical (u : List Nat) (hlen : u.length = 16)
    (hmem : ∀ b ∈ u, b < 256) :
    UUIDfromString (renderCanonical u) = .ok u := by
  obtain ⟨b0, b1, b2, b3, b4, b5, b6, b7, b8, b9, b10, b11, b12, b13, b14, b15, rfl⟩ := exists16 u hlen
  have h0 : b0 < 256 := hmem b0 (by simp)
  have h1 : b1 < 256 := hmem b1 (by simp)
  have h2 : b2 < 256 := hmem b2 (by simp)
  have h3 : b3 < 256 := hmem b3 (by simp)
  have h4 : b4 < 256 := hmem b4 (by simp)
  have h5 : b5 < 256 := hmem b5 (by simp)
  have h6 : b6 < 256 := hmem b6 (by simp)
  have h7 : b7 < 256 := hmem b7 (by simp)
  have h8 : b8 < 256 := hmem b8 (by simp)
  have h9 : b9 < 256 := hmem b9 (by simp)
  have h10 : b10 < 256 := hmem b10 (by simp)
  have h11 : b11 < 256 := hmem b11 (by simp)
  have h12 : b12 < 256 := hmem b12 (by simp)
  have h13 : b13 < 256 := hmem b13 (by simp)
  have h14 : b14 < 256 := hmem b14 (by simp)
  have h15 : b15 < 256 := hmem b15 (by simp)
  have hd := decodeCanonical_render [] b0 b1 b2 b3 b4 b5 b6 b7 b8 b9 b10 b11 b12 b13 b14 b15 h0 h1 h2 h3 h4 h5 h6 h7 h8 h9 h10 h11 h12 h13 h14 h15
  rw [List.append_nil] at hd
  rw [UUIDfromString_36 (renderCanonical [b0, b1, b2, b3, b4, b5, b6, b7, b8, b9, b10, b11, b12, b13, b14, b15]) rfl]
  exact hd

set_option maxRecDepth 10000 in
set_option maxHeartbeats 4000000 in
/-- C4: for every 16-byte identifier, parsing each of its four textual
renderings — canonical hyphenated, 32-character hyphen-less, braced, and
`urn:uuid:`-prefixed — returns exactly those bytes. -/
theorem C4_roundtrip :
    ∀ b0 b1 b2 b3 b4 b5 b6 b7 b8 b9 b10 b11 b12 b13 b14 b15 : Nat, b0 < 256 → b1 < 256 → b2 < 256 → b3 < 256 → b4 < 256 → b5 < 256 → b6 < 256 → b7 < 256 → b8 < 256 → b9 < 256 → b10 < 256 → b11 < 256 → b12 < 256 → b13 < 256 → b14 < 256 → b15 < 256 →
      (UUIDfromString (renderCanonical [b0, b1, b2, b3, b4, b5, b6, b7, b8, b9, b10, b11, b12, b13, b14, b15]) = .ok [b0, b1, b2, b3, b4, b5, b6, b7, b8, b9, b10, b11, b12, b13, b14, b15] ∧
       UUIDfromString (renderHex [b0, b1, b2, b3, b4, b5, b6, b7, b8, b9, b10, b11, b12, b13, b14, b15]) = .ok [b0, b1, b2, b3, b4, b5, b6, b7, b8, b9, b10, b11, b12, b13, b14, b15] ∧
       UUIDfromString (123 :: (renderCanonical [b0, b1, b2, b3, b4, b5, b6, b7, b8, b9, b10, b11, b12, b13, b14, b15] ++ [125])) = .ok [b0, b1, b2, b3, b4, b5, b6, b7, b8, b9, b10, b11, b12, b13, b14, b15] ∧
       UUIDfromString (urnPrefix ++ renderCanonical [b0, b1, b2, b3, b4, b5, b6, b7, b8, b9, b10, b11, b12, b13, b14, b15]) = .ok [b0, b1, b2, b3, b4, b5, b6, b7, b8, b9, b10, b11, b12, b13, b14, b15]) := by
  intro b0 b1 b2 b3 b4 b5 b6 b7 b8 b9 b10 b11 b12 b13 b14 b15 h0 h1 h2 h3 h4 h5 h6 h7 h8 h9 h10 h11 h12 h13 h14 h15
  refine ⟨?_, ?_, ?_, ?_⟩
  · exact roundtrip_canonical [b0, b1, b2, b3, b4, b5, b6, b7, b8, b9, b10, b11, b12, b13, b14, b15] rfl (by
      intro b hb
      simp only [List.mem_cons, List.not_mem_nil, or_false] at hb
      rcases hb with rfl|rfl|rfl|rfl|rfl|rfl|rfl|rfl|rfl|rfl|rfl|rfl|rfl|rfl|rfl|rfl <;> assumption)
  · rw [UUIDfromString_32 (renderHex [b0, b1, b2, b3, b4, b5, b6, b7, b8, b9, b10, b11, b12, b13, b14, b15]) rfl]
    exact decode32_renderHex b0 b1 b2 b3 b4 b5 b6 b7 b8 b9 b10 b11 b12 b13 b14 b15 h0 h1 h2 h3 h4 h5 h6 h7 h8 h9 h10 h11 h12 h13 h14 h15
  · rw [UUIDfromString_38cons 123 (renderCanonical [b0, b1, b2, b3, b4, b5, b6, b7, b8, b9, b10, b11, b12, b13, b14, b15] ++ [125]) (by rfl)]
    exact decodeCanonical_render [125] b0 b1 b2 b3 b4 b5 b6 b7 b8 b9 b10 b11 b12 b13 b14 b15 h0 h1 h2 h3 h4 h5 h6 h7 h8 h9 h10 h11 h12 h13 h14 h15
  · have hd := decodeCanonical_render [] b0 b1 b2 b3 b4 b5 b6 b7 b8 b9 b10 b11 b12 b13 b14 b15 h0 h1 h2 h3 h4 h5 h6 h7 h8 h9 h10 h11 h12 h13 h14 h15
    rw [List.append_nil] at hd
    rw [UUIDfromString_45 (urnPrefix ++ renderCanonical [b0, b1, b2, b3, b4, b5, b6, b7, b8, b9, b10, b11, b12, b13, b14, b15]) rfl rfl]
    rw [show (urnPrefix ++ renderCanonical [b0, b1, b2, b3, b4, b5, b6, b7, b8, b9, b10, b11, b12, b13, b14, b15]).drop 9 =
      renderCanonical [b0, b1, b2, b3, b4, b5, b6, b7, b8, b9, b10, b11, b12, b13, b14, b15] from rfl]
    exact hd

set_option maxRecDepth 10000 in
/-- Witness for C4 at the all-zero identifier. -/
theorem C4_roundtrip_witness :
    UUIDfromString (renderCanonical [0, 0, 0, 0, 0, 0, 0, 0, 0, 0, 0, 0, 0, 0, 0, 0]) = .ok [0, 0, 0, 0, 0, 0, 0, 0, 0, 0, 0, 0, 0, 0, 0, 0] ∧
    UUIDfromString (renderHex [0, 0, 0, 0, 0, 0, 0, 0, 0, 0, 0, 0, 0, 0, 0, 0]) = .ok [0, 0, 0, 0, 0, 0, 0, 0, 0, 0, 0, 0, 0, 0, 0, 0] ∧
    UUIDfromString (123 :: (renderCanonical [0, 0, 0, 0, 0, 0, 0, 0, 0, 0, 0, 0, 0, 0, 0, 0] ++ [125])) = .ok [0, 0, 0, 0, 0, 0, 0, 0, 0, 0, 0, 0, 0, 0, 0, 0] ∧
    UUIDfromString (urnPrefix ++ renderCanonical [0, 0, 0, 0, 0, 0, 0, 0, 0, 0, 0, 0, 0, 0, 0, 0]) = .ok [0, 0, 0, 0, 0, 0, 0, 0, 0, 0, 0, 0, 0, 0, 0, 0] :=
  C4_roundtrip 0 0 0 0 0 0 0 0 0 0 0 0 0 0 0 0 (by decide) (by decide) (by decide) (by decide) (by decide) (by decide) (by decide) (by decide) (by decide) (by decide) (by decide) (by decide) (by decide) (by decide) (by decide) (by decide)

set_option maxRecDepth 10000 in
/-- C7 counterexample: a 38-character input whose first and last characters
are square brackets — not braces — is nevertheless accepted, refuting the
claim that a 38-character input succeeds only when wrapped in braces. -/
theorem C7_braces_cex :
    (91 :: strCanonZeros ++ [93]).length = 38 ∧
    (91 :: strCanonZeros ++ [93]).getD 0 0 ≠ 123 ∧
    (91 :: strCanonZeros ++ [93]).getD 37 0 ≠ 125 ∧
    UUIDfromString (91 :: strCanonZeros ++ [93]) =
      .ok [0, 0, 0, 0, 0, 0, 16, 0, 128, 0, 0, 0, 0, 0, 0, 0] :=
  ⟨rfl, by decide, by decide, rfl⟩

set_option maxRecDepth 10000 in
set_option maxHeartbeats 4000000 in
/-- C7 amended: the parser drops only the first character of a 38-character
input and never inspects the first or the last character, so a canonical
body wrapped in any two characters — braces or not — is accepted. -/
theorem C7_wrapper_ignored :
    ∀ a z b0 b1 b2 b3 b4 b5 b6 b7 b8 b9 b10 b11 b12 b13 b14 b15 : Nat, b0 < 256 → b1 < 256 → b2 < 256 → b3 < 256 → b4 < 256 → b5 < 256 → b6 < 256 → b7 < 256 → b8 < 256 → b9 < 256 → b10 < 256 → b11 < 256 → b12 < 256 → b13 < 256 → b14 < 256 → b15 < 256 →
      UUIDfromString (a :: (renderCanonical [b0, b1, b2, b3, b4, b5, b6, b7, b8, b9, b10, b11, b12, b13, b14, b15] ++ [z])) = .ok [b0, b1, b2, b3, b4, b5, b6, b7, b8, b9, b10, b11, b12, b13, b14, b15] := by
  intro a z b0 b1 b2 b3 b4 b5 b6 b7 b8 b9 b10 b11 b12 b13 b14 b15 h0 h1 h2 h3 h4 h5 h6 h7 h8 h9 h10 h11 h12 h13 h14 h15
  rw [UUIDfromString_38cons a (renderCanonical [b0, b1, b2, b3, b4, b5, b6, b7, b8, b9, b10, b11, b12, b13, b14, b15] ++ [z]) (by rfl)]
  exact decodeCanonical_render [z] b0 b1 b2 b3 b4 b5 b6 b7 b8 b9 b10 b11 b12 b13 b14 b15 h0 h1 h2 h3 h4 h5 h6 h7 h8 h9 h10 h11 h12 h13 h14 h15

set_option maxRecDepth 10000 in
/-- Witness for C7 amended: bracket-wrapped all-zero canonical body. -/
theorem C7_wrapper_ignored_witness :
    UUIDfromString (91 :: (renderCanonical [0, 0, 0, 0, 0, 0, 0, 0, 0, 0, 0, 0, 0, 0, 0, 0] ++ [93])) = .ok [0, 0, 0, 0, 0, 0, 0, 0, 0, 0, 0, 0, 0, 0, 0, 0] :=
  C7_wrapper_ignored 91 93 0 0 0 0 0 0 0 0 0 0 0 0 0 0 0 0 (by decide) (by decide) (by decide) (by decide) (by decide) (by decide) (by decide) (by decide) (by decide) (by decide) (by decide) (by decide) (by decide) (by decide) (by decide) (by decide)

/-- The field-decode tails of the two parsers are the same function. -/
theorem decodeCanonicalBytes_eq (s : List Nat) :
    decodeCanonicalBytes s = decodeCanonical s := by
  unfold decodeCanonicalBytes decodeCanonical
  have h : ∀ idx : List Nat, decodeFieldsBytes s idx = decodeFields s idx := by
    intro idx
    induction idx with
    | nil => rfl
    | cons x rest ih => unfold decodeFieldsBytes decodeFields; rw [ih]
  rw [h]

/-- The 32-character loops of the two parsers agree: `UUIDfromString`
iterates `i = 0..15` reading positions `2i, 2i+1`, `UUIDfromBytes` iterates
the even positions directly. -/
theorem decode32Bytes_eq (s : List Nat) :
    decode32Bytes s idxEven = decode32 s idx16 := rfl

/-- Outside the 45-byte case the two parsers accept exactly the same
inputs with the same decoded bytes (their error values differ only in the
default branch). -/
theorem fromBytes_eq_fromString_off45 :
    ∀ s : List Nat, s.length ≠ 45 →
      (UUIDfromBytes s).toOption = (UUIDfromString s).toOption := by
  intro s h45
  unfold UUIDfromString UUIDfromBytes
  by_cases h32 : s.length = 32
  · rw [if_pos h32, if_pos h32, decode32Bytes_eq]
  · rw [if_neg h32, if_neg h32]
    by_cases h36 : s.length = 36
    · rw [if_pos h36, if_pos h36, decodeCanonicalBytes_eq]
    · rw [if_neg h36, if_neg h36]
      by_cases h38 : s.length = 36 + 2
      · rw [if_pos h38, if_pos h38, decodeCanonicalBytes_eq]
      · rw [if_neg h38, if_neg h38, if_neg (by omega : ¬s.length = 36 + 9),
          if_neg (by omega : ¬s.length = 36 + 9)]
        rfl

set_option maxRecDepth 10000 in
/-- C10: evaluation at the input that separates the two parsers: the
canonical `urn:uuid:`-prefixed string is accepted by `UUIDfromString` but
rejected by `UUIDfromBytes`, whose prefix comparison tests its first NINE
bytes against the EIGHT-byte literal `"urn:uuid"` (the colon is missing in
the source), so its URN branch can never succeed; on every length other
than 45 the two parsers agree. -/
theorem C10_fromBytes_urn_divergence :
    UUIDfromString strUrnZeros = .ok [0, 0, 0, 0, 0, 0, 16, 0, 128, 0, 0, 0, 0, 0, 0, 0] ∧
    UUIDfromBytes strUrnZeros = .error .wrongUrnPrefix ∧
    foldEqAscii (strUrnZeros.take 9) urnPrefixNoColon = false :=
  ⟨rfl, rfl, rfl⟩

/-- C6 counterexample: with a failing random source, `UUIDv4` does not
propagate the random-source error: it discards it and returns the parse
error produced by feeding the sentinel string to `UUIDfromString`. -/
theorem C6_error_cex :
    UUIDv4 [] = .error (.wrongLength 15) ∧
    UUIDv4asString [] = (uuidV4errSentinel, some .entropy) ∧
    Err.wrongLength 15 ≠ Err.entropy :=
  ⟨rfl, rfl, by decide⟩

set_option maxRecDepth 10000 in
/-- C6 amended: when the random source cannot fill the 16-byte buffer,
`UUIDv4asString` returns the entropy error directly (alongside its
sentinel string value), while `UUIDv4` discards that error and returns the
length error from parsing the 15-character sentinel; in both cases an
error is returned, so no identifier value is produced. -/
theorem C6_error_propagation :
    ∀ ent : List Nat, ent.length < 16 →
      UUIDv4asString ent = (uuidV4errSentinel, some .entropy) ∧
      UUIDv4 ent = .error (.wrongLength 15) := by
  intro ent h
  have hb : UUIDv4bytes ent = .error .entropy := by
    unfold UUIDv4bytes readBytes
    rw [if_pos h]
  constructor
  · unfold UUIDv4asString
    rw [hb]
  · unfold UUIDv4 UUIDv4asString
    rw [hb]
    rfl

/-- Witness for C6 amended, at the empty entropy source. -/
theorem C6_error_propagation_witness :
    UUIDv4asString [] = (uuidV4errSentinel, some .entropy) ∧
    UUIDv4 [] = .error (.wrongLength 15) :=
  C6_error_propagation [] (by decide)

/-- Spec-side abbreviation: the counter value after the millisecond-change
reset of a v7 call sampled at `now` (step 2 of the spec's v7 state machine). -/
def v7c0 (g : UUIDGeneratorV7) (now : Nat) : Nat :=
  if now = g.LastMillis then g.Counter else 0

/-- Spec-side: a v7 call is a rollover when the (post-reset) counter has
exhausted the 12-bit space. -/
def Rolled (g : UUIDGeneratorV7) (now : Nat) : Prop := 4095 ≤ v7c0 g now

instance (g : UUIDGeneratorV7) (now : Nat) : Decidable (Rolled g now) := by
  unfold Rolled
  infer_instance

/-- Spec-side: the 48-bit big-endian timestamp field of an identifier. -/
def tsField (u : List Nat) : Nat :=
  u.getD 0 0 * 2 ^ 40 + u.getD 1 0 * 2 ^ 32 + u.getD 2 0 * 2 ^ 24 +
    u.getD 3 0 * 2 ^ 16 + u.getD 4 0 * 2 ^ 8 + u.getD 5 0

/-- Spec-side: the 12-bit sequence field of a v7 identifier (low nibble of
byte 6, then byte 7). -/
def seqField (u : List Nat) : Nat := u.getD 6 0 % 16 * 256 + u.getD 7 0

/-- The millisecond reset always stores `now` and the reset counter. -/
theorem v7reset_eq (g : UUIDGeneratorV7) (now : Nat) :
    v7reset g now = ⟨now, v7c0 g now⟩ := by
  obtain ⟨lm, c⟩ := g
  unfold v7reset v7c0
  by_cases h : now = lm
  · subst h
    simp
  · simp [h]

theorem getD_pair_0 (a b d : Nat) : [a, b].getD 0 d = a := rfl

theorem getD_pair_1 (a b d : Nat) : [a, b].getD 1 d = b := rfl

/-- A successful 2-byte entropy read yields the first two buffer bytes. -/
theorem readBytes_2_ok {ent rb rest : List Nat}
    (h : readBytes 2 ent = .ok (rb, rest)) :
    rb = [ent.getD 0 0 % 256, ent.getD 1 0 % 256] ∧ rest = ent.drop 2 := by
  unfold readBytes at h
  split at h
  · exact absurd h (by simp)
  · rename_i hlen
    simp only [Except.ok.injEq, Prod.mk.injEq] at h
    obtain ⟨hrb, hrest⟩ := h
    refine ⟨?_, hrest.symm⟩
    rw [← hrb]
    cases ent with
    | nil => simp at hlen
    | cons a t =>
      cases t with
      | nil => simp at hlen
      | cons b t2 => rfl

/-- Success characterisation of one v7 generation call. -/
theorem NewV7_ok {g : UUIDGeneratorV7} {now : Nat} {ent : List Nat}
    {g2 : UUIDGeneratorV7} {u : List Nat}
    (hok : NewV7 g now ent = .ok (g2, u)) :
    ∃ cb rb, cb < 4096 ∧ u = v7pack now cb rb ∧ g2.LastMillis = now ∧
      (v7c0 g now < 4095 → cb = v7c0 g now ∧ g2.Counter = v7c0 g now + 1) ∧
      (4095 ≤ v7c0 g now →
        cb = (ent.getD 0 0 % 256 * 256 + ent.getD 1 0 % 256) % 4096 ∧
        g2.Counter = v7c0 g now) := by
  unfold NewV7 at hok
  rw [v7reset_eq] at hok
  unfold v7counter at hok
  by_cases hc : v7c0 g now < 4095
  · rw [if_pos (show (⟨now, v7c0 g now⟩ : UUIDGeneratorV7).Counter < 4095 from hc)] at hok
    dsimp only at hok
    cases hr : readBytes 10 ent with
    | error e =>
      rw [hr] at hok
      exact absurd hok (by simp)
    | ok pr =>
      obtain ⟨rb, rest⟩ := pr
      rw [hr] at hok
      simp only [Except.ok.injEq, Prod.mk.injEq] at hok
      obtain ⟨hg2, hu⟩ := hok
      refine ⟨v7c0 g now, rb, by omega, hu.symm, ?_, ?_, ?_⟩
      · rw [← hg2]
      · intro _
        rw [← hg2]
        exact ⟨rfl, rfl⟩
      · intro hge
        omega
  · rw [if_neg (show ¬(⟨now, v7c0 g now⟩ : UUIDGeneratorV7).Counter < 4095 from hc)] at hok
    cases hr2 : readBytes 2 ent with
    | error e =>
      rw [hr2] at hok
      exact absurd hok (by simp)
    | ok pr2 =>
      obtain ⟨rb2, rest2⟩ := pr2
      rw [hr2] at hok
      dsimp only at hok
      cases hr10 : readBytes 10 rest2 with
      | error e =>
        rw [hr10] at hok
        exact absurd hok (by simp)
      | ok pr10 =>
        obtain ⟨rb, rest10⟩ := pr10
        rw [hr10] at hok
        simp only [Except.ok.injEq, Prod.mk.injEq] at hok
        obtain ⟨hg2, hu⟩ := hok
        obtain ⟨hrb2, _⟩ := readBytes_2_ok hr2
        subst hrb2
        rw [getD_pair_0, getD_pair_1] at hu
        refine ⟨(((ent.getD 0 0 % 256) <<< 8) ||| ent.getD 1 0 % 256) &&& 0x0FFF, rb,
          ?_, ?_, ?_, ?_, ?_⟩
        · have := Nat.and_le_right
            (n := ((ent.getD 0 0 % 256) <<< 8) ||| ent.getD 1 0 % 256) (m := 0x0FFF)
          omega
        · exact hu.symm
        · rw [← hg2]
        · intro hlt
          omega
        · intro _
          constructor
          · rw [shiftLeft8_or_eq_add (ent.getD 0 0 % 256) (ent.getD 1 0 % 256)
              (Nat.mod_lt _ (by norm_num)),
              show (0x0FFF : Nat) = 2 ^ 12 - 1 from by norm_num,
              Nat.and_pow_two_sub_one_eq_mod]
          · rw [← hg2]

/-- Bytes 0-5 of a packed v7 identifier are the big-endian digits of `now`. -/
theorem v7pack_take6 (now cb : Nat) (rb : List Nat) :
    (v7pack now cb rb).take 6 =
      [now / 2 ^ 40 % 256, now / 2 ^ 32 % 256, now / 2 ^ 24 % 256,
       now / 2 ^ 16 % 256, now / 2 ^ 8 % 256, now % 256] := by
  show [now >>> 40 % 256, now >>> 32 % 256, now >>> 24 % 256,
    now >>> 16 % 256, now >>> 8 % 256, now % 256] = _
  simp [Nat.shiftRight_eq_div_pow]

/-- The timestamp field of a packed v7 identifier is `now` mod 2^48. -/
theorem tsField_pack (now cb : Nat) (rb : List Nat) :
    tsField (v7pack now cb rb) = now % 2 ^ 48 := by
  show now >>> 40 % 256 * 2 ^ 40 + now >>> 32 % 256 * 2 ^ 32 + now >>> 24 % 256 * 2 ^ 24 +
    now >>> 16 % 256 * 2 ^ 16 + now >>> 8 % 256 * 2 ^ 8 + now % 256 = now % 2 ^ 48
  simp only [Nat.shiftRight_eq_div_pow]
  omega

/-- The sequence field of a packed v7 identifier recovers the 12-bit value. -/
theorem seqField_pack (now cb : Nat) (rb : List Nat) (h : cb < 4096) :
    seqField (v7pack now cb rb) = cb := by
  show ((7 <<< 4) ||| (cb >>> 8 % 256)) % 16 * 256 + cb % 256 = cb
  have hsh : cb >>> 8 = cb / 256 := by
    rw [Nat.shiftRight_eq_div_pow]
  have hlt : cb / 256 < 16 := by omega
  rw [hsh, Nat.mod_eq_of_lt (by omega : cb / 256 < 256),
    show (7 <<< 4 : Nat) = 112 from rfl, or_112_mod (cb / 256) hlt]
  omega

/-- C2: one v7 generation step — millisecond change resets the state, a
non-exhausted counter is used as the sequence value and incremented, an
exhausted counter draws a random 12-bit value instead, and the output
packs `now` big-endian into bytes 0-5, the version nibble and the top 4
sequence bits into byte 6, and the low 8 sequence bits into byte 7; the
inline path of `UUIDv7asStringBody` is the same function. -/
theorem C2_v7_step :
    ∀ g now ent g2 u, NewV7 g now ent = .ok (g2, u) →
      UUIDv7asStringBody g now ent = NewV7 g now ent ∧
      g2.LastMillis = now ∧
      ((if now = g.LastMillis then g.Counter else 0) < 4095 →
        g2.Counter = (if now = g.LastMillis then g.Counter else 0) + 1 ∧
        seqField u = (if now = g.LastMillis then g.Counter else 0)) ∧
      (4095 ≤ (if now = g.LastMillis then g.Counter else 0) →
        g2.Counter = (if now = g.LastMillis then g.Counter else 0) ∧
        seqField u = (ent.getD 0 0 % 256 * 256 + ent.getD 1 0 % 256) % 4096) ∧
      u.take 6 = [now / 2 ^ 40 % 256, now / 2 ^ 32 % 256, now / 2 ^ 24 % 256,
        now / 2 ^ 16 % 256, now / 2 ^ 8 % 256, now % 256] ∧
      u.getD 6 0 = 112 + seqField u / 256 ∧
      u.getD 7 0 = seqField u % 256 := by
  intro g now ent g2 u hok
  obtain ⟨cb, rb, hcb, hu, hlm, hlow, hhigh⟩ := NewV7_ok hok
  subst hu
  have hseq : seqField (v7pack now cb rb) = cb := seqField_pack now cb rb hcb
  refine ⟨rfl, hlm, ?_, ?_, v7pack_take6 now cb rb, ?_, ?_⟩
  · intro h
    obtain ⟨hcb2, hcnt⟩ := hlow h
    exact ⟨hcnt, by rw [hseq, hcb2]; rfl⟩
  · intro h
    obtain ⟨hcb2, hcnt⟩ := hhigh h
    exact ⟨hcnt, by rw [hseq, hcb2]⟩
  · show (7 <<< 4) ||| (cb >>> 8 % 256) = 112 + seqField (v7pack now cb rb) / 256
    rw [hseq]
    have hsh : cb >>> 8 = cb / 256 := by rw [Nat.shiftRight_eq_div_pow]
    rw [hsh, Nat.mod_eq_of_lt (by omega : cb / 256 < 256),
      show (7 <<< 4 : Nat) = 112 from rfl, or_112_add (cb / 256) (by omega)]
  · show cb % 256 = seqField (v7pack now cb rb) % 256
    rw [hseq]

/-- Witness for C2 at a concrete state, clock value, and entropy buffer. -/
theorem C2_v7_step_witness :
    seqField (v7pack 5 3 [1, 2, 3, 4, 5, 6, 7, 8, 9, 10]) = 3 :=
  ((((C2_v7_step ⟨5, 3⟩ 5 [1, 2, 3, 4, 5, 6, 7, 8, 9, 10, 11, 12] ⟨5, 4⟩
      (v7pack 5 3 [1, 2, 3, 4, 5, 6, 7, 8, 9, 10]) rfl).2.2.1) (by decide)).2).trans
    (by decide)

/-- A sequence of successful v7 generation calls on one generator
instance; each input is a (clock sample, entropy buffer) pair. -/
inductive V7Run : UUIDGeneratorV7 → List (Nat × List Nat) → UUIDGeneratorV7 → Prop where
  | nil (g : UUIDGeneratorV7) : V7Run g [] g
  | cons {g g2 gf : UUIDGeneratorV7} {p : Nat × List Nat} {l : List (Nat × List Nat)}
      {u : List Nat} :
      NewV7 g p.1 p.2 = .ok (g2, u) → V7Run g2 l gf → V7Run g (p :: l) gf

/-- A sequence of successful v7 generation calls none of which is a
counter rollover. -/
inductive V7RunNR : UUIDGeneratorV7 → List (Nat × List Nat) → UUIDGeneratorV7 → Prop where
  | nil (g : UUIDGeneratorV7) : V7RunNR g [] g
  | cons {g g2 gf : UUIDGeneratorV7} {p : Nat × List Nat} {l : List (Nat × List Nat)}
      {u : List Nat} :
      ¬ Rolled g p.1 → NewV7 g p.1 p.2 = .ok (g2, u) → V7RunNR g2 l gf →
      V7RunNR g (p :: l) gf

/-- A rollover-free run at a constant clock value advances the counter by
exactly the number of calls. -/
theorem v7runNR_const (t : Nat) :
    ∀ (l : List (Nat × List Nat)) (s sf : UUIDGeneratorV7),
      V7RunNR s l sf → (∀ p ∈ l, p.1 = t) → s.LastMillis = t →
      sf.LastMillis = t ∧ sf.Counter = s.Counter + l.length := by
  intro l
  induction l with
  | nil =>
    intro s sf hrun _ hlm
    cases hrun
    exact ⟨hlm, by simp⟩
  | cons p rest ih =>
    intro s sf hrun htime hlm
    cases hrun with
    | cons hnr hok hrest =>
      rename_i g2 u
      have hpt : p.1 = t := htime p (by simp)
      have hc0 : v7c0 s p.1 = s.Counter := by
        unfold v7c0
        rw [hpt, hlm]
        simp
      have hroll : v7c0 s p.1 < 4095 := by
        by_contra hge
        exact hnr (by unfold Rolled; omega)
      obtain ⟨cb, rb, hcb, hu, hlm2, hlow, _⟩ := NewV7_ok hok
      obtain ⟨_, hcnt⟩ := hlow hroll
      have hrec := ih g2 sf hrest (fun q hq => htime q (by simp [hq])) (by rw [hlm2, hpt])
      refine ⟨hrec.1, ?_⟩
      rw [hrec.2, hcnt, hc0]
      simp [List.length_cons]
      omega

set_option maxRecDepth 10000 in
/-- C8: for two successful v7 calls with calls in between, all ordered in
real time (non-decreasing clock samples), the 48-bit timestamp field is
non-decreasing; when the two timestamp fields are equal, the 12-bit
sequence field strictly increases unless a counter rollover intervened. -/
theorem C8_v7_order :
    ∀ (s : UUIDGeneratorV7) (n1 : Nat) (e1 : List Nat) (s1 : UUIDGeneratorV7) (u1 : List Nat)
      (mid : List (Nat × List Nat)) (sMid : UUIDGeneratorV7)
      (n2 : Nat) (e2 : List Nat) (s2 : UUIDGeneratorV7) (u2 : List Nat),
      NewV7 s n1 e1 = .ok (s1, u1) →
      V7Run s1 mid sMid →
      NewV7 sMid n2 e2 = .ok (s2, u2) →
      n1 ≤ n2 → n2 < 2 ^ 48 →
      tsField u1 ≤ tsField u2 ∧
      (tsField u1 = tsField u2 →
        (∀ p ∈ mid, n1 ≤ p.1 ∧ p.1 ≤ n2) →
        V7RunNR s1 mid sMid → ¬ Rolled sMid n2 →
        seqField u1 < seqField u2) := by
  intro s n1 e1 s1 u1 mid sMid n2 e2 s2 u2 hok1 hrun hok2 h12 h48
  obtain ⟨cb1, rb1, hcb1, hu1, hlm1, hlow1, hhigh1⟩ := NewV7_ok hok1
  obtain ⟨cb2, rb2, hcb2, hu2, hlm2, hlow2, hhigh2⟩ := NewV7_ok hok2
  subst hu1
  subst hu2
  rw [tsField_pack, tsField_pack]
  have e1lt : n1 % 2 ^ 48 = n1 := Nat.mod_eq_of_lt (by omega)
  have e2lt : n2 % 2 ^ 48 = n2 := Nat.mod_eq_of_lt h48
  constructor
  · omega
  · intro hts hsand hnr hnroll2
    have hn12 : n1 = n2 := by omega
    subst hn12
    rw [seqField_pack _ _ _ hcb1, seqField_pack _ _ _ hcb2]
    by_cases hroll1 : v7c0 s n1 < 4095
    · obtain ⟨hcbe1, hs1c⟩ := hlow1 hroll1
      have htmid : ∀ p ∈ mid, p.1 = n1 := fun p hp =>
        le_antisymm (hsand p hp).2 (hsand p hp).1
      have hconst := v7runNR_const n1 mid s1 sMid hnr htmid hlm1
      have hc0mid : v7c0 sMid n1 = sMid.Counter := by
        unfold v7c0
        rw [hconst.1]
        simp
      have hmidlt : v7c0 sMid n1 < 4095 := by
        by_contra hge
        exact hnroll2 (by unfold Rolled; omega)
      obtain ⟨hcbe2, _⟩ := hlow2 hmidlt
      rw [hcbe1, hcbe2, hc0mid, hconst.2, hs1c]
      omega
    · push_neg at hroll1
      obtain ⟨_, hs1c⟩ := hhigh1 hroll1
      have hrolls1 : Rolled s1 n1 := by
        unfold Rolled v7c0
        rw [hlm1]
        simp
        omega
      cases hnr with
      | nil => exact absurd hrolls1 hnroll2
      | cons hnrh hokh hrest =>
        rename_i g2m pm lm um
        have hpm : pm.1 = n1 :=
          le_antisymm (hsand pm (by simp)).2 (hsand pm (by simp)).1
        rw [hpm] at hnrh
        exact absurd hrolls1 hnrh

/-- Witness for C8: two consecutive calls in the same millisecond with no
rollover; the sequence field increases. -/
theorem C8_v7_order_witness :
    seqField (v7pack 5 3 [1, 2, 3, 4, 5, 6, 7, 8, 9, 10]) <
      seqField (v7pack 5 4 [1, 2, 3, 4, 5, 6, 7, 8, 9, 10]) :=
  (C8_v7_order ⟨5, 3⟩ 5 [1, 2, 3, 4, 5, 6, 7, 8, 9, 10] ⟨5, 4⟩
      (v7pack 5 3 [1, 2, 3, 4, 5, 6, 7, 8, 9, 10]) [] ⟨5, 4⟩ 5
      [1, 2, 3, 4, 5, 6, 7, 8, 9, 10] ⟨5, 5⟩ (v7pack 5 4 [1, 2, 3, 4, 5, 6, 7, 8, 9, 10])
      rfl (V7Run.nil ⟨5, 4⟩) rfl (by decide) (by decide)).2
    (by decide) (fun p hp => absurd hp (List.not_mem_nil p))
    (V7RunNR.nil ⟨5, 4⟩) (by decide)

/-- Spec-side: the 14-bit value drawn by `GetRandom14Bit` from the first
two entropy bytes, big-endian, reduced mod 2^14. -/
def rand14spec (ent : List Nat) : Nat :=
  (ent.getD 0 0 % 256 * 256 + ent.getD 1 0 % 256) % 2 ^ 14

/-- The 14-bit mask is reduction mod 2^14. -/
theorem and_clockSeqMask (x : Nat) : x &&& clockSeqMask = x % 2 ^ 14 := by
  rw [show clockSeqMask = 2 ^ 14 - 1 from rfl, Nat.and_pow_two_sub_one_eq_mod]

/-- A successful `GetRandom14Bit` draw is the spec-side 14-bit value. -/
theorem GetRandom14Bit_ok {ent : List Nat} {r : Nat} {rest : List Nat}
    (h : GetRandom14Bit ent = .ok (r, rest)) : r = rand14spec ent := by
  unfold GetRandom14Bit at h
  cases hr : readBytes 2 ent with
  | error e =>
    rw [hr] at h
    exact absurd h (by simp)
  | ok pr =>
    obtain ⟨rb, rest2⟩ := pr
    rw [hr] at h
    obtain ⟨hrb, _⟩ := readBytes_2_ok hr
    subst hrb
    simp only [Except.ok.injEq, Prod.mk.injEq] at h
    obtain ⟨hrv, _⟩ := h
    rw [← hrv, getD_pair_0, getD_pair_1,
      shiftLeft8_or_eq_add _ _ (Nat.mod_lt _ (by norm_num)), and_clockSeqMask]
    rfl

/-- Byte 6 of a packed v1 identifier. -/
theorem v1pack_getD6 (ts cs : Nat) (node : List Nat) :
    (v1pack ts cs node).getD 6 0 = ((((ts >>> 48) &&& 0x0FFF) ||| 0x1000) >>> 8) % 256 := rfl

/-- Byte 8 of a packed v1 identifier. -/
theorem v1pack_getD8 (ts cs : Nat) (node : List Nat) :
    (v1pack ts cs node).getD 8 0 = ((cs >>> 8) &&& 0x3F) ||| 0x80 := rfl

/-- The version nibble of byte 6 of a packed v1 identifier is 1. -/
theorem v1_byte6 (ts : Nat) :
    ((((ts >>> 48) &&& 0x0FFF) ||| 0x1000) >>> 8) % 256 / 16 = 1 := by
  have hmask : (ts >>> 48) &&& 0x0FFF ≤ 0x0FFF := Nat.and_le_right
  rw [Nat.shiftRight_eq_div_pow (((ts >>> 48) &&& 0x0FFF) ||| 0x1000) 8, or_div_pow 8]
  rw [show (0x1000 : Nat) / 2 ^ 8 = 16 from by norm_num]
  refine or_16_div _ ?_
  have h256 : (2 : Nat) ^ 8 = 256 := by norm_num
  rw [h256]
  omega

/-- The variant bits of a clock-seq-high byte are binary 10. -/
theorem v1_byte8 (cs : Nat) : (((cs >>> 8) &&& 0x3F) ||| 0x80) / 64 = 2 :=
  or_128_div _ (by
    have := Nat.and_le_right (n := cs >>> 8) (m := 0x3F)
    omega)

/-- C3: the clock sequence used by a v1 generation call is selected by the
relation of the sampled timestamp to the stored one — fresh random 14-bit
on first use, increment mod 2^14 on clock regression, increment mod 2^14
on an equal timestamp with a busy-wait plus fresh random draw on wrap, and
fresh random on forward progress — and the (timestamp, clock sequence)
pair is persisted as the new state. `tN` models the re-sampled timestamp
at which the busy-wait loop exits, so `tN ≠ g.LastTimestamp`. -/
theorem C3_v1_clockseq :
    ∀ g ts tN ent g2 u,
      tN ≠ g.LastTimestamp →
      NewV1 g ts tN ent = .ok (g2, u) →
      ((g.LastTimestamp = 0 →
          g2.ClockSeq = rand14spec ent ∧ g2.LastTimestamp = ts) ∧
       (g.LastTimestamp ≠ 0 → ts < g.LastTimestamp →
          g2.ClockSeq = (g.ClockSeq + 1) % 2 ^ 14 ∧ g2.LastTimestamp = ts) ∧
       (g.LastTimestamp ≠ 0 → ts = g.LastTimestamp →
          ((g.ClockSeq + 1) % 2 ^ 14 ≠ 0 →
             g2.ClockSeq = (g.ClockSeq + 1) % 2 ^ 14 ∧ g2.LastTimestamp = ts) ∧
          ((g.ClockSeq + 1) % 2 ^ 14 = 0 →
             g2.ClockSeq = rand14spec ent ∧ g2.LastTimestamp = tN)) ∧
       (g.LastTimestamp ≠ 0 → g.LastTimestamp < ts →
          g2.ClockSeq = rand14spec ent ∧ g2.LastTimestamp = ts)) := by
  intro g ts tN ent g2 u htN hok
  unfold NewV1 at hok
  cases hp : v1pick g ts tN ent with
  | error e =>
    rw [hp] at hok
    exact absurd hok (by simp)
  | ok pr =>
    obtain ⟨cs, ts2⟩ := pr
    rw [hp] at hok
    simp only [Except.ok.injEq, Prod.mk.injEq] at hok
    obtain ⟨hg2, hu⟩ := hok
    rw [← hg2]
    unfold v1pick at hp
    refine ⟨?_, ?_, ?_, ?_⟩
    · intro h0
      rw [if_pos h0] at hp
      cases hr : GetRandom14Bit ent with
      | error e =>
        rw [hr] at hp
        exact absurd hp (by simp)
      | ok pr2 =>
        obtain ⟨r, rest⟩ := pr2
        rw [hr] at hp
        simp only [Except.ok.injEq, Prod.mk.injEq] at hp
        exact ⟨by rw [← hp.1, GetRandom14Bit_ok hr], hp.2.symm ▸ rfl⟩
    · intro h0 hlt
      rw [if_neg h0, if_pos hlt] at hp
      simp only [Except.ok.injEq, Prod.mk.injEq] at hp
      refine ⟨?_, hp.2.symm ▸ rfl⟩
      rw [← hp.1, and_clockSeqMask]
    · intro h0 heq
      rw [if_neg h0, if_neg (by omega : ¬ts < g.LastTimestamp), if_pos heq] at hp
      constructor
      · intro hnz
        rw [if_neg (by rw [and_clockSeqMask]; exact hnz)] at hp
        simp only [Except.ok.injEq, Prod.mk.injEq] at hp
        refine ⟨?_, hp.2.symm ▸ rfl⟩
        rw [← hp.1, and_clockSeqMask]
      · intro hz
        rw [if_pos (by rw [and_clockSeqMask]; exact hz)] at hp
        cases hr : GetRandom14Bit ent with
        | error e =>
          rw [hr] at hp
          exact absurd hp (by simp)
        | ok pr2 =>
          obtain ⟨r, rest⟩ := pr2
          rw [hr] at hp
          simp only [Except.ok.injEq, Prod.mk.injEq] at hp
          exact ⟨by rw [← hp.1, GetRandom14Bit_ok hr], hp.2.symm ▸ rfl⟩
    · intro h0 hgt
      rw [if_neg h0, if_neg (by omega : ¬ts < g.LastTimestamp),
        if_neg (by omega : ¬ts = g.LastTimestamp)] at hp
      cases hr : GetRandom14Bit ent with
      | error e =>
        rw [hr] at hp
        exact absurd hp (by simp)
      | ok pr2 =>
        obtain ⟨r, rest⟩ := pr2
        rw [hr] at hp
        simp only [Except.ok.injEq, Prod.mk.injEq] at hp
        exact ⟨by rw [← hp.1, GetRandom14Bit_ok hr], hp.2.symm ▸ rfl⟩

/-- Witness for C3: first call ever (stored timestamp 0) draws the random
clock sequence 0x1234 and persists the sampled timestamp. -/
theorem C3_v1_clockseq_witness :
    ((⟨100, 4660, [1, 2, 3, 4, 5, 6]⟩ : UUIDv1Generator)).ClockSeq = rand14spec [18, 52] ∧
    ((⟨100, 4660, [1, 2, 3, 4, 5, 6]⟩ : UUIDv1Generator)).LastTimestamp = 100 :=
  (C3_v1_clockseq ⟨0, 7, [1, 2, 3, 4, 5, 6]⟩ 100 1 [18, 52]
      ⟨100, 4660, [1, 2, 3, 4, 5, 6]⟩ (v1pack 100 4660 [1, 2, 3, 4, 5, 6])
      (by decide) rfl).1 rfl

theorem or_64_lt : ∀ a < 16, a ||| 64 < 256 := by decide

/-- A successful 16-byte entropy read yields the first 16 buffer bytes. -/
theorem readBytes_16_ok {ent rb rest : List Nat}
    (h : readBytes 16 ent = .ok (rb, rest)) :
    rb = [ent.getD 0 0 % 256, ent.getD 1 0 % 256, ent.getD 2 0 % 256, ent.getD 3 0 % 256, ent.getD 4 0 % 256, ent.getD 5 0 % 256, ent.getD 6 0 % 256, ent.getD 7 0 % 256, ent.getD 8 0 % 256, ent.getD 9 0 % 256, ent.getD 10 0 % 256, ent.getD 11 0 % 256, ent.getD 12 0 % 256, ent.getD 13 0 % 256, ent.getD 14 0 % 256, ent.getD 15 0 % 256] := by
  unfold readBytes at h
  split at h
  · exact absurd h (by simp)
  · rename_i hlen
    simp only [Except.ok.injEq, Prod.mk.injEq] at h
    obtain ⟨hrb, _⟩ := h
    rw [← hrb]
    cases ent with
    | nil => simp at hlen
    | cons a0 t0 =>
      cases t0 with
      | nil => simp at hlen
      | cons a1 t1 =>
        cases t1 with
        | nil => simp at hlen
        | cons a2 t2 =>
          cases t2 with
          | nil => simp at hlen
          | cons a3 t3 =>
            cases t3 with
            | nil => simp at hlen
            | cons a4 t4 =>
              cases t4 with
              | nil => simp at hlen
              | cons a5 t5 =>
                cases t5 with
                | nil => simp at hlen
                | cons a6 t6 =>
                  cases t6 with
                  | nil => simp at hlen
                  | cons a7 t7 =>
                    cases t7 with
                    | nil => simp at hlen
                    | cons a8 t8 =>
                      cases t8 with
                      | nil => simp at hlen
                      | cons a9 t9 =>
                        cases t9 with
                        | nil => simp at hlen
                        | cons a10 t10 =>
                          cases t10 with
                          | nil => simp at hlen
                          | cons a11 t11 =>
                            cases t11 with
                            | nil => simp at hlen
                            | cons a12 t12 =>
                              cases t12 with
                              | nil => simp at hlen
                              | cons a13 t13 =>
                                cases t13 with
                                | nil => simp at hlen
                                | cons a14 t14 =>
                                  cases t14 with
                                  | nil => simp at hlen
                                  | cons a15 t15 =>
                                    rfl

/-- Success characterisation of the v4 byte construction. -/
theorem UUIDv4bytes_ok {ent u : List Nat} (h : UUIDv4bytes ent = .ok u) :
    u.length = 16 ∧ (∀ x ∈ u, x < 256) ∧ u.getD 6 0 / 16 = 4 ∧ u.getD 8 0 / 64 = 2 := by
  unfold UUIDv4bytes at h
  cases hr : readBytes 16 ent with
  | error e =>
    rw [hr] at h
    exact absurd h (by simp)
  | ok pr =>
    obtain ⟨b, rest⟩ := pr
    rw [hr] at h
    have hb := readBytes_16_ok hr
    subst hb
    simp only [Except.ok.injEq] at h
    subst h
    refine ⟨rfl, ?_, ?_, ?_⟩
    · show ∀ x ∈ [ent.getD 0 0 % 256, ent.getD 1 0 % 256, ent.getD 2 0 % 256, ent.getD 3 0 % 256, ent.getD 4 0 % 256, ent.getD 5 0 % 256, (ent.getD 6 0 % 256 &&& 0x0f) ||| 0x40, ent.getD 7 0 % 256, (ent.getD 8 0 % 256 &&& 0x3f) ||| 0x80, ent.getD 9 0 % 256, ent.getD 10 0 % 256, ent.getD 11 0 % 256, ent.getD 12 0 % 256, ent.getD 13 0 % 256, ent.getD 14 0 % 256, ent.getD 15 0 % 256], x < 256
      intro x hx
      simp only [List.mem_cons, List.not_mem_nil, or_false] at hx
      rcases hx with rfl|rfl|rfl|rfl|rfl|rfl|rfl|rfl|rfl|rfl|rfl|rfl|rfl|rfl|rfl|rfl
      · exact Nat.mod_lt _ (by norm_num : (0 : Nat) < 256)
      · exact Nat.mod_lt _ (by norm_num : (0 : Nat) < 256)
      · exact Nat.mod_lt _ (by norm_num : (0 : Nat) < 256)
      · exact Nat.mod_lt _ (by norm_num : (0 : Nat) < 256)
      · exact Nat.mod_lt _ (by norm_num : (0 : Nat) < 256)
      · exact Nat.mod_lt _ (by norm_num : (0 : Nat) < 256)
      · exact or_64_lt _ (by
          have := Nat.and_le_right (n := ent.getD 6 0 % 256) (m := 0x0f)
          omega)
      · exact Nat.mod_lt _ (by norm_num : (0 : Nat) < 256)
      · exact or_128_lt _ (by
          have := Nat.and_le_right (n := ent.getD 8 0 % 256) (m := 0x3f)
          omega)
      · exact Nat.mod_lt _ (by norm_num : (0 : Nat) < 256)
      · exact Nat.mod_lt _ (by norm_num : (0 : Nat) < 256)
      · exact Nat.mod_lt _ (by norm_num : (0 : Nat) < 256)
      · exact Nat.mod_lt _ (by norm_num : (0 : Nat) < 256)
      · exact Nat.mod_lt _ (by norm_num : (0 : Nat) < 256)
      · exact Nat.mod_lt _ (by norm_num : (0 : Nat) < 256)
      · exact Nat.mod_lt _ (by norm_num : (0 : Nat) < 256)
    · show ((ent.getD 6 0 % 256 &&& 0x0f) ||| 0x40) / 16 = 4
      exact or_64_div _ (by
        have := Nat.and_le_right (n := ent.getD 6 0 % 256) (m := 0x0f)
        omega)
    · show ((ent.getD 8 0 % 256 &&& 0x3f) ||| 0x80) / 64 = 2
      exact or_128_div _ (by
        have := Nat.and_le_right (n := ent.getD 8 0 % 256) (m := 0x3f)
        omega)

set_option maxRecDepth 10000 in
set_option maxHeartbeats 4000000 in
/-- C1: every identifier produced by the v1, v4, or v7 generators carries
its version number in the top nibble of byte 6 (1, 4, 7 respectively) and
the variant bits 10 in the top 2 bits of byte 8. -/
theorem C1_version_variant :
    (∀ g ts tN ent g2 u, NewV1 g ts tN ent = .ok (g2, u) →
        u.getD 6 0 / 16 = 1 ∧ u.getD 8 0 / 64 = 2) ∧
    (∀ ent u, UUIDv4bytes ent = .ok u → u.getD 6 0 / 16 = 4 ∧ u.getD 8 0 / 64 = 2) ∧
    (∀ ent u, UUIDv4 ent = .ok u → u.getD 6 0 / 16 = 4 ∧ u.getD 8 0 / 64 = 2) ∧
    (∀ g now ent g2 u, NewV7 g now ent = .ok (g2, u) →
        u.getD 6 0 / 16 = 7 ∧ u.getD 8 0 / 64 = 2) := by
  refine ⟨?_, ?_, ?_, ?_⟩
  · intro g ts tN ent g2 u hok
    unfold NewV1 at hok
    cases hp : v1pick g ts tN ent with
    | error e =>
      rw [hp] at hok
      exact absurd hok (by simp)
    | ok pr =>
      obtain ⟨cs, ts2⟩ := pr
      rw [hp] at hok
      simp only [Except.ok.injEq, Prod.mk.injEq] at hok
      rw [← hok.2, v1pack_getD6, v1pack_getD8]
      exact ⟨v1_byte6 ts2, v1_byte8 cs⟩
  · intro ent u hok
    exact ⟨(UUIDv4bytes_ok hok).2.2.1, (UUIDv4bytes_ok hok).2.2.2⟩
  · intro ent u hok
    unfold UUIDv4 UUIDv4asString at hok
    cases hb : UUIDv4bytes ent with
    | error e =>
      rw [hb] at hok
      dsimp only at hok
      rw [show UUIDfromString uuidV4errSentinel = Except.error (Err.wrongLength 15) from rfl] at hok
      exact absurd hok (by simp)
    | ok b =>
      rw [hb] at hok
      dsimp only at hok
      obtain ⟨hlen, hmem, h6, h8⟩ := UUIDv4bytes_ok hb
      rw [roundtrip_canonical b hlen hmem] at hok
      simp only [Except.ok.injEq] at hok
      subst hok
      exact ⟨h6, h8⟩
  · intro g now ent g2 u hok
    obtain ⟨cb, rb, hcb, hu, _, _, _⟩ := NewV7_ok hok
    subst hu
    constructor
    · show ((7 <<< 4) ||| (cb >>> 8 % 256)) / 16 = 7
      have hsh : cb >>> 8 = cb / 256 := by rw [Nat.shiftRight_eq_div_pow]
      rw [hsh, Nat.mod_eq_of_lt (by omega : cb / 256 < 256),
        show (7 <<< 4 : Nat) = 112 from rfl, or_112_add (cb / 256) (by omega)]
      omega
    · show ((rb.getD 0 0 &&& 0x3F) ||| 0x80) / 64 = 2
      exact or_128_div _ (by
        have := Nat.and_le_right (n := rb.getD 0 0) (m := 0x3F)
        omega)

set_option maxRecDepth 10000 in
/-- Witness for C1 at concrete generator runs of all three versions. -/
theorem C1_version_variant_witness :
    ((v1pack 100 4660 [1, 2, 3, 4, 5, 6]).getD 6 0 / 16 = 1 ∧
     (v1pack 100 4660 [1, 2, 3, 4, 5, 6]).getD 8 0 / 64 = 2) ∧
    (([0, 1, 2, 3, 4, 5, 70, 7, 136, 9, 10, 11, 12, 13, 14, 15]).getD 6 0 / 16 = 4 ∧ ([0, 1, 2, 3, 4, 5, 70, 7, 136, 9, 10, 11, 12, 13, 14, 15]).getD 8 0 / 64 = 2) ∧
    ((v7pack 5 3 [1, 2, 3, 4, 5, 6, 7, 8, 9, 10]).getD 6 0 / 16 = 7 ∧
     (v7pack 5 3 [1, 2, 3, 4, 5, 6, 7, 8, 9, 10]).getD 8 0 / 64 = 2) :=
  ⟨C1_version_variant.1 ⟨0, 7, [1, 2, 3, 4, 5, 6]⟩ 100 1 [18, 52]
      ⟨100, 4660, [1, 2, 3, 4, 5, 6]⟩ (v1pack 100 4660 [1, 2, 3, 4, 5, 6]) rfl,
   C1_version_variant.2.2.1 [0, 1, 2, 3, 4, 5, 6, 7, 8, 9, 10, 11, 12, 13, 14, 15] [0, 1, 2, 3, 4, 5, 70, 7, 136, 9, 10, 11, 12, 13, 14, 15] rfl,
   C1_version_variant.2.2.2 ⟨5, 3⟩ 5 [1, 2, 3, 4, 5, 6, 7, 8, 9, 10, 11, 12]
      ⟨5, 4⟩ (v7pack 5 3 [1, 2, 3, 4, 5, 6, 7, 8, 9, 10]) rfl⟩

end PGo
